import Mathlib

/-
Verification of the ferrous RISC-V educational OS against its specification.

The definitions below are a shallow embedding of the Rust sources:
  - src/crates/ferrous-vm/src/memory.rs        (SimpleMemory and the Memory trait)
  - src/assignments/assignment-6-net/crates/ferrous-vm/src/mmu.rs (translate, check_permissions;
    the main crate declares `pub mod mmu` but its mmu.rs file is not present under src/)
  - src/crates/ferrous-vm/src/lib.rs           (VirtualMachine::step fetch prefix)
  - src/crates/ferrous-vm/src/error.rs         (error enums)
  - src/crates/ferrous-vm/src/trap.rs          (TrapCause)
  - src/crates/ferrous-vm/src/devices/uart.rs  (UART RBR read)
  - src/crates/ferrous-kernel/src/memory.rs    (alloc_frame, map_page, create_user_address_space)
  - src/crates/ferrous-kernel/src/thread/*.rs  (ThreadManager, scheduler, TCB)
  - src/crates/ferrous-kernel/src/sync.rs      (Mutex)
  - src/crates/ferrous-kernel/src/syscall.rs   (result encoding)
  - src/crates/ferrous-kernel/src/lib.rs       (MutexRelease, Sbrk, WaitPid handlers,
    translate_vaddr, copy_to_user)
  - src/crates/ferrous-kernel/src/fs/mod.rs    (FileSystem::read_data)
  - src/crates/ferrous-kernel/src/fs/syscalls.rs (FileRead pipe branch)

Machine integers are Nat with explicit masking where u32 overflow matters.
-/

deriving instance DecidableEq for Except

namespace Ferrous

/-- Privilege mode of the CPU. Declared with the Cpu state in ferrous-vm (the Cpu struct
itself is not among the files under src/; spec section 3 gives the mode set
User, Supervisor, Machine). -/
inductive PrivilegeMode where
  | user
  | supervisor
  | machine
deriving DecidableEq, Repr

/-- AccessType from mmu.rs. -/
inductive AccessType where
  | read
  | write
  | execute
deriving DecidableEq, Repr

/-- DeviceError from src/crates/ferrous-vm/src/error.rs. -/
inductive DeviceError where
  | invalidOffset (addr : Nat)
  | ioError (msg : String)
deriving DecidableEq, Repr

/-- MemoryError from src/crates/ferrous-vm/src/error.rs. -/
inductive MemoryError where
  | outOfBounds (addr : Nat)
  | readOnly (addr : Nat)
  | device (e : DeviceError)
  | misaligned (addr alignment : Nat)
deriving DecidableEq, Repr

/-- TrapCause from src/crates/ferrous-vm/src/trap.rs. -/
inductive TrapCause where
  | instructionMisaligned (addr : Nat)
  | instructionAccessFault (addr : Nat)
  | illegalInstruction (instruction : Nat)
  | breakpoint
  | loadAddressMisaligned (addr : Nat)
  | loadAccessFault (addr : Nat)
  | storeAddressMisaligned (addr : Nat)
  | storeAccessFault (addr : Nat)
  | environmentCallFromU
  | environmentCallFromS
  | instructionPageFault (addr : Nat)
  | loadPageFault (addr : Nat)
  | storePageFault (addr : Nat)
  | timerInterrupt
  | externalInterrupt
deriving DecidableEq, Repr

/-- TrapError from src/crates/ferrous-vm/src/error.rs. -/
inductive TrapError where
  | halt
  | handlerPanic (msg : String)
  | unhandled (cause : TrapCause)
deriving DecidableEq, Repr

/-- DecodeError from src/crates/ferrous-vm/src/error.rs. -/
inductive DecodeError where
  | invalidEncoding (inst : Nat)
  | invalidOpcode (op : Nat)
deriving DecidableEq, Repr

/-- VmError from src/crates/ferrous-vm/src/error.rs. -/
inductive VmError where
  | memory (e : MemoryError)
  | trap (e : TrapError)
  | invalidInstruction (inst : Nat)
  | registerIndex (idx : Nat)
  | decode (e : DecodeError)
deriving DecidableEq, Repr

/-- SimpleMemory from src/crates/ferrous-vm/src/memory.rs: a byte store of size bytes
starting at base (0x8000_0000 at construction), whose data vector is zero-filled by new.
Represented sparsely: writes records the byte writes, most recent first; a byte never
written reads as 0, matching the all-zero initial data. -/
structure Mem where
  base : Nat
  size : Nat
  writes : List (Nat × Nat)
deriving DecidableEq, Repr

/-- SimpleMemory::read_byte: in-bounds bytes read back the last written value (default 0),
out-of-bounds addresses give MemoryError::OutOfBounds. -/
def Mem.read_byte (m : Mem) (addr : Nat) : Except MemoryError Nat :=
  if m.base ≤ addr ∧ addr < m.base + m.size then
    Except.ok ((m.writes.lookup addr).getD 0)
  else
    Except.error (MemoryError.outOfBounds addr)

/-- SimpleMemory::write_byte. -/
def Mem.write_byte (m : Mem) (addr v : Nat) : Except MemoryError Mem :=
  if m.base ≤ addr ∧ addr < m.base + m.size then
    Except.ok { m with writes := (addr, v) :: m.writes }
  else
    Except.error (MemoryError.outOfBounds addr)

/-- Default Memory::read_word of the Memory trait: four byte reads, little-endian. -/
def Mem.read_word (m : Mem) (addr : Nat) : Except MemoryError Nat :=
  match m.read_byte addr with
  | Except.error e => Except.error e
  | Except.ok b0 =>
    match m.read_byte (addr + 1) with
    | Except.error e => Except.error e
    | Except.ok b1 =>
      match m.read_byte (addr + 2) with
      | Except.error e => Except.error e
      | Except.ok b2 =>
        match m.read_byte (addr + 3) with
        | Except.error e => Except.error e
        | Except.ok b3 => Except.ok (b0 ||| (b1 <<< 8) ||| (b2 <<< 16) ||| (b3 <<< 24))

/-- Default Memory::write_word of the Memory trait: four byte writes, little-endian. -/
def Mem.write_word (m : Mem) (addr v : Nat) : Except MemoryError Mem :=
  match m.write_byte addr (v &&& 0xFF) with
  | Except.error e => Except.error e
  | Except.ok m =>
    match m.write_byte (addr + 1) ((v >>> 8) &&& 0xFF) with
    | Except.error e => Except.error e
    | Except.ok m =>
      match m.write_byte (addr + 2) ((v >>> 16) &&& 0xFF) with
      | Except.error e => Except.error e
      | Except.ok m =>
        match m.write_byte (addr + 3) ((v >>> 24) &&& 0xFF) with
        | Except.error e => Except.error e
        | Except.ok m => Except.ok m

/-- Verification accessor: the byte a SimpleMemory read returns at an in-bounds
address (last write, default 0). -/
def Mem.byteAt (m : Mem) (a : Nat) : Nat := (m.writes.lookup a).getD 0

/-- Verification accessor: the four little-endian byte writes that one in-bounds
write_word call prepends to the sparse write list. -/
def write4 (a v : Nat) (l : List (Nat × Nat)) : List (Nat × Nat) :=
  (a + 3, (v >>> 24) &&& 0xFF) :: (a + 2, (v >>> 16) &&& 0xFF) ::
    (a + 1, (v >>> 8) &&& 0xFF) :: (a, v &&& 0xFF) :: l

/-! MMU (mmu.rs). -/

def PAGE_SIZE : Nat := 4096

def PTE_V : Nat := 1 <<< 0
def PTE_R : Nat := 1 <<< 1
def PTE_W : Nat := 1 <<< 2
def PTE_X : Nat := 1 <<< 3
def PTE_U : Nat := 1 <<< 4
def PTE_G : Nat := 1 <<< 5
def PTE_A : Nat := 1 <<< 6
def PTE_D : Nat := 1 <<< 7

/-- The match access_type arms repeated throughout mmu.rs: the page-fault cause
matching an access type, on the faulting virtual address. -/
def page_fault_for (access_type : AccessType) (addr : Nat) : TrapCause :=
  match access_type with
  | AccessType.read => TrapCause.loadPageFault addr
  | AccessType.write => TrapCause.storePageFault addr
  | AccessType.execute => TrapCause.instructionPageFault addr

/-- check_permissions from mmu.rs: the privilege (U-bit) check followed by the
R/W/X access check, both failing with the page fault matching the access type. -/
def check_permissions (pte : Nat) (access_type : AccessType) (mode : PrivilegeMode)
    (addr : Nat) : Except TrapCause Unit :=
  let priv_ok : Bool :=
    match mode with
    | PrivilegeMode.user => pte &&& PTE_U != 0
    | PrivilegeMode.supervisor => pte &&& PTE_U == 0
    | PrivilegeMode.machine => true
  if priv_ok then
    let valid : Bool :=
      match access_type with
      | AccessType.read => pte &&& PTE_R != 0 || pte &&& PTE_X != 0
      | AccessType.write => pte &&& PTE_W != 0
      | AccessType.execute => pte &&& PTE_X != 0
    if valid then Except.ok () else Except.error (page_fault_for access_type addr)
  else
    Except.error (page_fault_for access_type addr)

/-- translate from mmu.rs: bare mode passthrough, two-level SV32 walk with
superpage handling, permission checks on the leaf. Shift results are masked
to 32 bits where the u32 shift could exceed them. -/
def translate (addr : Nat) (access_type : AccessType) (satp : Nat)
    (mode : PrivilegeMode) (memory : Mem) : Except TrapCause Nat :=
  if satp &&& 0x80000000 = 0 ∨ mode = PrivilegeMode.machine then
    Except.ok addr
  else
    let ppn_root := satp &&& 0x3FFFFF
    let vpn1 := (addr >>> 22) &&& 0x3FF
    let vpn0 := (addr >>> 12) &&& 0x3FF
    let offset := addr &&& 0xFFF
    match memory.read_word (((ppn_root <<< 12) &&& 0xFFFFFFFF) + vpn1 * 4) with
    | Except.error _ => Except.error (TrapCause.loadAccessFault addr)
    | Except.ok pte1 =>
      if pte1 &&& PTE_V = 0 then
        Except.error (page_fault_for access_type addr)
      else if pte1 &&& (PTE_R ||| PTE_W ||| PTE_X) ≠ 0 then
        -- Superpage (4MB)
        if (pte1 >>> 10) &&& 0x3FF ≠ 0 then
          Except.error (page_fault_for access_type addr)
        else
          let ppn1 := (pte1 >>> 20) &&& 0xFFF
          let pa := ((ppn1 <<< 22) &&& 0xFFFFFFFF) ||| (vpn0 <<< 12) ||| offset
          match check_permissions pte1 access_type mode addr with
          | Except.error e => Except.error e
          | Except.ok _ => Except.ok pa
      else
        let ppn1 := (pte1 >>> 10) &&& 0x3FFFFF
        match memory.read_word (((ppn1 <<< 12) &&& 0xFFFFFFFF) + vpn0 * 4) with
        | Except.error _ => Except.error (TrapCause.loadAccessFault addr)
        | Except.ok pte0 =>
          if pte0 &&& PTE_V = 0 then
            Except.error (page_fault_for access_type addr)
          else if pte0 &&& (PTE_R ||| PTE_W ||| PTE_X) = 0 then
            Except.error (page_fault_for access_type addr)
          else
            match check_permissions pte0 access_type mode addr with
            | Except.error e => Except.error e
            | Except.ok _ =>
              let ppn0 := (pte0 >>> 10) &&& 0x3FFFFF
              Except.ok ((((ppn0 <<< 12)) &&& 0xFFFFFFFF) ||| offset)

/-- Verification accessor: the leaf PTE that the page walk of translate reaches
(the L1 entry when it is a leaf, else the L0 entry when valid and a leaf);
none when the walk faults before reaching a leaf. Mirrors the walk structure of
translate without the permission and alignment checks. -/
def walk_leaf (addr satp : Nat) (memory : Mem) : Option Nat :=
  let ppn_root := satp &&& 0x3FFFFF
  let vpn1 := (addr >>> 22) &&& 0x3FF
  let vpn0 := (addr >>> 12) &&& 0x3FF
  match memory.read_word (((ppn_root <<< 12) &&& 0xFFFFFFFF) + vpn1 * 4) with
  | Except.error _ => none
  | Except.ok pte1 =>
    if pte1 &&& PTE_V = 0 then none
    else if pte1 &&& (PTE_R ||| PTE_W ||| PTE_X) ≠ 0 then some pte1
    else
      let ppn1 := (pte1 >>> 10) &&& 0x3FFFFF
      match memory.read_word (((ppn1 <<< 12) &&& 0xFFFFFFFF) + vpn0 * 4) with
      | Except.error _ => none
      | Except.ok pte0 =>
        if pte0 &&& PTE_V = 0 then none
        else if pte0 &&& (PTE_R ||| PTE_W ||| PTE_X) = 0 then none
        else some pte0

theorem check_permissions_user_u0 (pte : Nat) (acc : AccessType) (addr : Nat)
    (hU : pte &&& PTE_U = 0) :
    check_permissions pte acc PrivilegeMode.user addr
      = Except.error (page_fault_for acc addr) := by
  unfold check_permissions
  simp [hU]

/-- C1: for every translation with current privilege User and paging enabled,
if the leaf PTE reached by the page walk has the U flag clear, translate returns
the page fault matching the access type (LoadPageFault for reads, StorePageFault
for writes, InstructionPageFault for fetches) on the faulting virtual address,
and never returns a physical address. -/
theorem translate_user_u0_page_fault (addr satp pte : Nat) (memory : Mem)
    (acc : AccessType)
    (hpag : satp &&& 0x80000000 ≠ 0)
    (hleaf : walk_leaf addr satp memory = some pte)
    (hU : pte &&& PTE_U = 0) :
    translate addr acc satp PrivilegeMode.user memory
        = Except.error (page_fault_for acc addr) ∧
      ∀ pa, translate addr acc satp PrivilegeMode.user memory ≠ Except.ok pa := by
  have heq : translate addr acc satp PrivilegeMode.user memory
      = Except.error (page_fault_for acc addr) := by
    have hcond : ¬ (satp &&& 0x80000000 = 0 ∨
        PrivilegeMode.user = PrivilegeMode.machine) := by
      simp [hpag]
    simp only [walk_leaf] at hleaf
    simp only [translate, hcond, if_false]
    split
    · next e h1 =>
      rw [h1] at hleaf
      simp at hleaf
    · next pte1 h1 =>
      rw [h1] at hleaf
      dsimp only at hleaf
      by_cases hv : pte1 &&& PTE_V = 0
      · rw [if_pos hv] at hleaf
        simp at hleaf
      · rw [if_neg hv] at hleaf
        rw [if_neg hv]
        by_cases hleafb : pte1 &&& (PTE_R ||| PTE_W ||| PTE_X) ≠ 0
        · rw [if_pos hleafb] at hleaf
          rw [if_pos hleafb]
          have hU1 : pte1 &&& PTE_U = 0 := by
            rw [Option.some.inj hleaf]; exact hU
          by_cases halign : (pte1 >>> 10) &&& 0x3FF ≠ 0
          · rw [if_pos halign]
          · rw [if_neg halign]
            rw [check_permissions_user_u0 pte1 acc addr hU1]
        · rw [if_neg hleafb] at hleaf
          rw [if_neg hleafb]
          split
          · next e h0 =>
            rw [h0] at hleaf
            simp at hleaf
          · next pte0 h0 =>
            rw [h0] at hleaf
            dsimp only at hleaf
            by_cases hv0 : pte0 &&& PTE_V = 0
            · rw [if_pos hv0] at hleaf
              simp at hleaf
            · rw [if_neg hv0] at hleaf
              rw [if_neg hv0]
              by_cases hz : pte0 &&& (PTE_R ||| PTE_W ||| PTE_X) = 0
              · rw [if_pos hz] at hleaf
                simp at hleaf
              · rw [if_neg hz] at hleaf
                rw [if_neg hz]
                have hU0 : pte0 &&& PTE_U = 0 := by
                  rw [Option.some.inj hleaf]; exact hU
                rw [check_permissions_user_u0 pte0 acc addr hU0]
  refine ⟨heq, ?_⟩
  intro pa
  rw [heq]
  simp

/-- C1 witness: a concrete one-level (superpage) mapping with V and R set and U
clear; a user-mode read at virtual address 0 raises LoadPageFault and the walk
reaches leaf PTE 3. -/
theorem translate_user_u0_page_fault_witness :
    translate 0 AccessType.read 0x80080000 PrivilegeMode.user
        (Mem.mk 0x80000000 4096 [(0x80000000, 3)])
        = Except.error (page_fault_for AccessType.read 0) ∧
      ∀ pa, translate 0 AccessType.read 0x80080000 PrivilegeMode.user
        (Mem.mk 0x80000000 4096 [(0x80000000, 3)]) ≠ Except.ok pa :=
  translate_user_u0_page_fault 0 0x80080000 3
    (Mem.mk 0x80000000 4096 [(0x80000000, 3)]) AccessType.read
    (by decide) (by decide) (by decide)

/-! UART device (src/crates/ferrous-vm/src/devices/uart.rs). -/

/-- UartDevice::read at the RBR offset (uart.rs lines 37-71), with the host-stdin
refill abstracted away: input_buffer is the device's buffered input after any refill,
and an empty buffer models the EOF path (stdin read returned 0 bytes, so the register
reads 0). Pops the front byte; a carriage return (13) is normalized: an immediately
following buffered line feed (10) is also consumed, and 10 is returned in place of 13.
Returns the register value and the remaining buffer. -/
def uart_read_rbr (input_buffer : List Nat) : Nat × List Nat :=
  match input_buffer with
  | [] => (0, [])
  | byte :: rest =>
    if byte = 13 then
      match rest with
      | next :: rest2 => if next = 10 then (10, rest2) else (10, rest)
      | [] => (10, rest)
    else (byte, rest)

/-! CPU fetch (src/crates/ferrous-vm/src/lib.rs, VirtualMachine::step lines 130-142). -/

/-- Modelled from the spec: the Cpu state of ferrous-vm. The crate re-exports
cpu::* but the Cpu struct itself is not among the files under src/ (cpu.rs holds
only Register); spec section 3: 32 general registers with register 0 hard-wired to
zero, a program counter, a privilege mode, and the paging control word satp;
register-0 writes are silently dropped. -/
structure Cpu where
  pc : Nat
  regs : List Nat
  satp : Nat
  mode : PrivilegeMode
deriving DecidableEq, Repr

/-- Cpu::write_reg: register 0 writes are silently dropped (spec section 3). -/
def Cpu.write_reg (c : Cpu) (r v : Nat) : Cpu :=
  if r = 0 then c else { c with regs := c.regs.set r v }

/-- Cpu::read_reg: reads of register 0 return zero (regs start zeroed and index 0
is never written). -/
def Cpu.read_reg (c : Cpu) (r : Nat) : Nat := c.regs.getD r 0

/-- The a0 result register (x10) as the guest observes a syscall return. -/
def a0 (c : Cpu) : Nat := c.regs.getD 10 0

/-- The outcome of the fetch prefix of VirtualMachine::step: either a
StepResult::Trap cause, or falling through to decode/dispatch with the fetched
instruction word. -/
inductive FetchResult where
  | trap (cause : TrapCause)
  | fetched (instruction_word : Nat)
deriving DecidableEq, Repr

/-- The fetch prefix of VirtualMachine::step (lib.rs lines 130-142): translate the
PC as Execute, turning a translation fault into StepResult::Trap; then read the
instruction word, turning a memory error into Err(VmError::Memory) via map_err.
fetched w stands for step continuing into decode and dispatch with word w; that
part of step decides none of the claims here. -/
def step_fetch (cpu : Cpu) (memory : Mem) : Except VmError FetchResult :=
  match translate cpu.pc AccessType.execute cpu.satp cpu.mode memory with
  | Except.error e => Except.ok (FetchResult.trap e)
  | Except.ok pc_phys =>
    match memory.read_word pc_phys with
    | Except.error e => Except.error (VmError.memory e)
    | Except.ok instruction_word => Except.ok (FetchResult.fetched instruction_word)

/-! Thread manager (src/crates/ferrous-kernel/src/thread/mod.rs, tcb.rs, scheduler.rs). -/

/-- ThreadState from thread/tcb.rs. -/
inductive ThreadState where
  | ready
  | running
  | blocked
  | waiting (target : Nat)
  | terminated (exit_code : Int)
deriving DecidableEq, Repr

/-- Modelled from the spec: the tagged FileDescriptor that fs/syscalls.rs
pattern-matches (FileDescriptor::File, FileDescriptor::Pipe); the copy of
thread/tcb.rs under src/ carries an older struct-only FileDescriptor, while the
enum version it imports is not under src/. Spec section 3: tagged variant
File(inode_id, offset, flags) / Pipe(pipe_id, is_write) / Socket(socket_id). -/
inductive FileDescriptor where
  | file (inode_id offset flags : Nat)
  | pipe (pipe_id : Nat) (is_write : Bool)
  | socket (socket_id : Nat)
deriving DecidableEq, Repr

/-- SavedContext from thread/tcb.rs. -/
structure SavedContext where
  pc : Nat
  regs : List Nat
  satp : Nat
  mode : PrivilegeMode
deriving DecidableEq, Repr

/-- SavedContext::save_from: snapshot the CPU into the context. -/
def SavedContext.save_from (_ctx : SavedContext) (cpu : Cpu) : SavedContext :=
  { pc := cpu.pc, regs := cpu.regs, satp := cpu.satp, mode := cpu.mode }

/-- SavedContext::restore_to: install the context into the CPU. -/
def SavedContext.restore_to (ctx : SavedContext) (cpu : Cpu) : Cpu :=
  { cpu with pc := ctx.pc, regs := ctx.regs, satp := ctx.satp, mode := ctx.mode }

/-- SavedContext::write_reg from tcb.rs: only indices 1..31 are written. -/
def SavedContext.write_reg (ctx : SavedContext) (r v : Nat) : SavedContext :=
  if 0 < r ∧ r < 32 then { ctx with regs := ctx.regs.set r v } else ctx

/-- ThreadControlBlock from thread/tcb.rs. -/
structure ThreadControlBlock where
  handle : Nat
  state : ThreadState
  context : SavedContext
  stack_pointer : Nat
  kernel_stack : Nat
  program_break : Nat
  file_descriptors : List (Option FileDescriptor)
deriving DecidableEq, Repr

/-- ThreadManager from thread/mod.rs; threads is the BTreeMap as an association
list in key order, ready_queue is the RoundRobinScheduler's VecDeque. -/
structure ThreadManager where
  threads : List (Nat × ThreadControlBlock)
  ready_queue : List Nat
  current_thread : Option Nat
  next_handle : Nat
deriving DecidableEq, Repr

/-- BTreeMap::get_mut followed by assignment: update the value stored at the first
(and in a map, only) occurrence of key k. -/
def assocUpdate {α : Type} (l : List (Nat × α)) (k : Nat) (f : α → α) : List (Nat × α) :=
  match l with
  | [] => []
  | (k', v) :: rest =>
    if k' = k then (k', f v) :: rest else (k', v) :: assocUpdate rest k f

/-- ThreadManager::block_current_thread. -/
def ThreadManager.block_current_thread (tm : ThreadManager) : ThreadManager :=
  match tm.current_thread with
  | none => tm
  | some current =>
    let threads' := assocUpdate tm.threads current
      (fun tcb => { tcb with state := ThreadState.blocked })
    { tm with threads := threads' }

/-- ThreadManager::wake_thread (thread/mod.rs lines 233-241): Blocked becomes
Ready and the handle is enqueued; any other state is left alone. -/
def ThreadManager.wake_thread (tm : ThreadManager) (handle : Nat) : ThreadManager :=
  match tm.threads.lookup handle with
  | none => tm
  | some tcb =>
    if tcb.state = ThreadState.blocked then
      let threads' := assocUpdate tm.threads handle
        (fun t => { t with state := ThreadState.ready })
      { tm with threads := threads', ready_queue := tm.ready_queue ++ [handle] }
    else tm

/-- ThreadManager::yield_thread: save the current context (re-enqueueing the
thread only if it was still Running), then pop the next ready handle, mark it
Running and restore its context; the Bool mirrors the Rust return value. -/
def ThreadManager.yield_thread (tm : ThreadManager) (cpu : Cpu) :
    ThreadManager × Cpu × Bool :=
  let tm :=
    match tm.current_thread with
    | none => tm
    | some current =>
      match tm.threads.lookup current with
      | none => tm
      | some tcb =>
        if tcb.state = ThreadState.running then
          let threads' := assocUpdate tm.threads current (fun t =>
            let t := { t with state := ThreadState.ready }
            { t with context := t.context.save_from cpu })
          { tm with ready_queue := tm.ready_queue ++ [current], threads := threads' }
        else
          let threads' := assocUpdate tm.threads current
            (fun t => { t with context := t.context.save_from cpu })
          { tm with threads := threads' }
  match tm.ready_queue with
  | next :: rest =>
    let tm := { tm with ready_queue := rest, current_thread := some next }
    match tm.threads.lookup next with
    | some tcb =>
      let threads' := assocUpdate tm.threads next
        (fun t => { t with state := ThreadState.running })
      ({ tm with threads := threads' }, tcb.context.restore_to cpu, true)
    | none => (tm, cpu, true)
  | [] =>
    match tm.current_thread with
    | none => (tm, cpu, false)
    | some current =>
      match tm.threads.lookup current with
      | some tcb =>
        if tcb.state ≠ ThreadState.running then (tm, cpu, false) else (tm, cpu, true)
      | none => (tm, cpu, true)

/-- i32/i64 to u32 cast (two's-complement bit pattern), as in Rust as u32. -/
def u32_of_int (i : Int) : Nat := (i % 4294967296).toNat

/-- The predicate of the waiter-collection loop in
ThreadManager::exit_current_thread: if let Waiting(target) = tcb.state, target ==
current. -/
def waiting_on (current : Nat) (p : Nat × ThreadControlBlock) : Bool :=
  match p.2.state with
  | ThreadState.waiting target => target == current
  | _ => false

/-- The per-waiter mutation of the wake loop in
ThreadManager::exit_current_thread: state becomes Ready and the exit code is
written into the saved a0 slot (register 10). -/
def wake_with_code (code : Int) (t : ThreadControlBlock) : ThreadControlBlock :=
  let t := { t with state := ThreadState.ready }
  { t with context := { t.context with
      regs := t.context.regs.set 10 (u32_of_int code) } }

/-- One iteration of the wake loop of ThreadManager::exit_current_thread: the
woken thread becomes Ready, the exit code is pre-written into its saved a0
(register 10), and it is enqueued. -/
def exit_wake_step (code : Int) (tm : ThreadManager) (h : Nat) : ThreadManager :=
  match tm.threads.lookup h with
  | none => tm
  | some _ =>
    let threads' := assocUpdate tm.threads h (wake_with_code code)
    { tm with threads := threads', ready_queue := tm.ready_queue ++ [h] }

/-- ThreadManager::exit_current_thread (thread/mod.rs lines 170-199): collect the
threads Waiting on the exiting one, make each Ready with the exit code written to
its saved a0 (register 10) and enqueue it, then mark the exiting thread
Terminated and clear current_thread. -/
def ThreadManager.exit_current_thread (tm : ThreadManager) (code : Int) :
    ThreadManager :=
  match tm.current_thread with
  | none => tm
  | some current =>
    let to_wake := (tm.threads.filter (waiting_on current)).map Prod.fst
    let tm := to_wake.foldl (exit_wake_step code) tm
    let threads'' := assocUpdate tm.threads current
      (fun t => { t with state := ThreadState.terminated code })
    { tm with threads := threads'', current_thread := none }

/-- ThreadManager::wait_current_thread (thread/mod.rs lines 209-231). -/
def ThreadManager.wait_current_thread (tm : ThreadManager) (target : Nat) :
    Except String (ThreadManager × Option Int) :=
  match tm.threads.lookup target with
  | none => Except.error "Target thread not found"
  | some target_tcb =>
    match target_tcb.state with
    | ThreadState.terminated exit_code => Except.ok (tm, some exit_code)
    | _ =>
      match tm.current_thread with
      | none => Except.error "No current thread"
      | some current =>
        if current = target then Except.error "Cannot wait on self"
        else
          let threads' := assocUpdate tm.threads current
            (fun t => { t with state := ThreadState.waiting target })
          Except.ok ({ tm with threads := threads' }, none)

/-! Synchronization (src/crates/ferrous-kernel/src/sync.rs) and pipes
(Pipe struct as used by fs/syscalls.rs). -/

/-- Mutex from sync.rs: id, optional owner handle, FIFO wait queue. -/
structure Mutex where
  id : Nat
  owner : Option Nat
  wait_queue : List Nat
deriving DecidableEq, Repr

/-- Pipe as constructed in fs/syscalls.rs (Syscall::Pipe arm): byte queue, the
two open flags, and the FIFO wait queue of blocked readers. -/
structure Pipe where
  buffer : List Nat
  read_open : Bool
  write_open : Bool
  wait_queue : List Nat
deriving DecidableEq, Repr

/-! Syscall encoding (src/crates/ferrous-kernel/src/syscall.rs). -/

/-- SyscallReturn from syscall.rs. -/
inductive SyscallReturn where
  | success
  | handle (h : Nat)
  | value (v : Int)
  | pointer (p : Nat)
deriving DecidableEq, Repr

/-- SyscallError from src/crates/ferrous-kernel/src/error.rs. -/
inductive SyscallError where
  | invalidSyscallNumber (n : Nat)
  | invalidArgument
deriving DecidableEq, Repr

def u32_MAX : Nat := 4294967295

/-- Syscall::encode_result: write the result into a0 (register 10); any error is
encoded as u32::MAX. -/
def Syscall.encode_result (result : Except SyscallError SyscallReturn) (cpu : Cpu) :
    Cpu :=
  match result with
  | Except.ok SyscallReturn.success => cpu.write_reg 10 0
  | Except.ok (SyscallReturn.value v) => cpu.write_reg 10 (u32_of_int v)
  | Except.ok (SyscallReturn.handle h) => cpu.write_reg 10 h
  | Except.ok (SyscallReturn.pointer p) => cpu.write_reg 10 p
  | Except.error _ => cpu.write_reg 10 u32_MAX

/-! Kernel syscall handlers (src/crates/ferrous-kernel/src/lib.rs). -/

/-- The Syscall::MutexRelease arm of Kernel::handle_syscall (lib.rs lines
431-460): only the recorded owner may release; on release the front waiter (if
any) is dequeued, becomes the owner and is woken; errors encode u32::MAX.
Returns the resume address with the updated mutex table, thread manager, CPU. -/
def mutex_release (id : Nat) (mutexes : List (Nat × Mutex)) (tm : ThreadManager)
    (cpu : Cpu) :
    Except TrapError (Nat × List (Nat × Mutex) × ThreadManager × Cpu) :=
  match tm.current_thread with
  | none => Except.error (TrapError.handlerPanic
      "MutexRelease called without current thread")
  | some current_handle =>
    match mutexes.lookup id with
    | some mutex =>
      if mutex.owner = some current_handle then
        let mutex := { mutex with owner := none }
        let step :=
          match mutex.wait_queue with
          | next_owner :: rest =>
            ({ mutex with owner := some next_owner, wait_queue := rest },
             tm.wake_thread next_owner)
          | [] => (mutex, tm)
        let mutexes := assocUpdate mutexes id (fun _ => step.1)
        let cpu := Syscall.encode_result (Except.ok SyscallReturn.success) cpu
        Except.ok (cpu.pc + 4, mutexes, step.2, cpu)
      else
        let cpu := Syscall.encode_result
          (Except.error (SyscallError.invalidSyscallNumber 0)) cpu
        Except.ok (cpu.pc + 4, mutexes, tm, cpu)
    | none =>
      let cpu := Syscall.encode_result
        (Except.error (SyscallError.invalidSyscallNumber 0)) cpu
      Except.ok (cpu.pc + 4, mutexes, tm, cpu)

/-- The Syscall::WaitPid arm of Kernel::handle_syscall (lib.rs lines 619-648):
pid 0 is a handler panic; an already-terminated target returns its exit code; a
live target marks the caller Waiting and yields; any wait error (missing target,
waiting on self) encodes u32::MAX and advances the PC. -/
def waitpid (pid : Nat) (tm : ThreadManager) (cpu : Cpu) :
    Except TrapError (Nat × ThreadManager × Cpu) :=
  if pid = 0 then Except.error (TrapError.handlerPanic "Invalid pid 0")
  else
    match tm.wait_current_thread pid with
    | Except.ok (tm, some exit_code) =>
      let cpu := Syscall.encode_result
        (Except.ok (SyscallReturn.value exit_code)) cpu
      Except.ok (cpu.pc + 4, tm, cpu)
    | Except.ok (tm, none) =>
      let cpu := Syscall.encode_result (Except.ok SyscallReturn.success) cpu
      let cpu := { cpu with pc := cpu.pc + 4 }
      let yielded := tm.yield_thread cpu
      Except.ok (yielded.2.1.pc, yielded.1, yielded.2.1)
    | Except.error _ =>
      let cpu := Syscall.encode_result
        (Except.error (SyscallError.invalidSyscallNumber 0)) cpu
      Except.ok (cpu.pc + 4, tm, cpu)

/-! Kernel address-space management (src/crates/ferrous-kernel/src/memory.rs). -/

def SATP_MODE_SV32 : Nat := 1 <<< 31

/-- alloc_frame: the bump allocator over NEXT_FREE_FRAME; returns the frame and
the advanced allocator state. -/
def alloc_frame (next_free_frame : Nat) : Nat × Nat :=
  (next_free_frame, next_free_frame + PAGE_SIZE)

/-- The zeroing loops of memory.rs (for i in 0..1024 write_word(pa + i*4, 0)),
counting down on fuel while the word index i counts up. -/
def zero_words (memory : Mem) (pa : Nat) (i fuel : Nat) : Except String Mem :=
  match fuel with
  | 0 => Except.ok memory
  | fuel + 1 =>
    match memory.write_word (pa + i * 4) 0 with
    | Except.error _ => Except.error "Failed to zero PTE"
    | Except.ok m => zero_words m pa (i + 1) fuel

/-- map_page from memory.rs (lines 34-80): read the L1 PTE; if invalid, allocate
and zero an L0 table and point the L1 entry at it; then write the leaf L0 PTE
with the frame's PPN, the supplied flags, and V, A, D OR-ed in. -/
def map_page (memory : Mem) (nff root_ppn vaddr paddr flags : Nat) :
    Except String (Mem × Nat) :=
  let vpn1 := (vaddr >>> 22) &&& 0x3FF
  let vpn0 := (vaddr >>> 12) &&& 0x3FF
  let l1_pte_addr := ((root_ppn <<< 12) &&& 0xFFFFFFFF) + vpn1 * 4
  match memory.read_word l1_pte_addr with
  | Except.error _ => Except.error "Failed to read L1 PTE"
  | Except.ok l1_pte =>
    let after_l1 : Except String (Mem × Nat × Nat) :=
      if l1_pte &&& PTE_V = 0 then
        let fr := alloc_frame nff
        match zero_words memory fr.1 0 1024 with
        | Except.error e => Except.error e
        | Except.ok memory =>
          let l0_ppn := fr.1 >>> 12
          let l1_pte' := ((l0_ppn <<< 10) &&& 0xFFFFFFFF) ||| PTE_V
          match memory.write_word l1_pte_addr l1_pte' with
          | Except.error _ => Except.error "Failed to write L1 PTE"
          | Except.ok memory => Except.ok (memory, fr.2, l1_pte')
      else Except.ok (memory, nff, l1_pte)
    match after_l1 with
    | Except.error e => Except.error e
    | Except.ok (memory, nff, l1_pte) =>
      let l0_ppn := (l1_pte >>> 10) &&& 0x3FFFFF
      let l0_pte_addr := ((l0_ppn <<< 12) &&& 0xFFFFFFFF) + vpn0 * 4
      let ppn := paddr >>> 12
      let l0_pte := ((ppn <<< 10) &&& 0xFFFFFFFF) ||| flags ||| PTE_V ||| PTE_A ||| PTE_D
      match memory.write_word l0_pte_addr l0_pte with
      | Except.error _ => Except.error "Failed to write L0 PTE"
      | Except.ok memory => Except.ok (memory, nff)

/-- create_user_address_space from memory.rs (lines 143-173): allocate and zero a
root page table, identity-map the UART page (0x1000_0000) and the block-device
page (0x2000_0000) R|W, and return satp = SV32_MODE | root_ppn together with the
new memory and allocator state. -/
def create_user_address_space (memory : Mem) (nff : Nat) :
    Except String (Nat × Mem × Nat) :=
  let fr := alloc_frame nff
  match zero_words memory fr.1 0 1024 with
  | Except.error e => Except.error e
  | Except.ok memory =>
    let root_ppn := fr.1 >>> 12
    match map_page memory fr.2 root_ppn 0x10000000 0x10000000 (PTE_R ||| PTE_W) with
    | Except.error e => Except.error e
    | Except.ok (memory, nff) =>
      match map_page memory nff root_ppn 0x20000000 0x20000000 (PTE_R ||| PTE_W) with
      | Except.error e => Except.error e
      | Except.ok (memory, nff) =>
        Except.ok (SATP_MODE_SV32 ||| root_ppn, memory, nff)

/-- The page-mapping loop of the Sbrk arm (lib.rs lines 503-517): for each page
between the old and new page-aligned break, allocate a frame and map it user
R|W. -/
def sbrk_map_pages (memory : Mem) (nff page_addr end_page root_ppn : Nat) :
    Except String (Mem × Nat) :=
  if _h : page_addr < end_page then
    let fr := alloc_frame nff
    match map_page memory fr.2 root_ppn page_addr fr.1 (PTE_R ||| PTE_W ||| PTE_U) with
    | Except.error e => Except.error e
    | Except.ok (memory, nff) =>
      sbrk_map_pages memory nff (page_addr + PAGE_SIZE) end_page root_ppn
  else Except.ok (memory, nff)
termination_by end_page - page_addr
decreasing_by
  simp only [PAGE_SIZE]
  omega

/-- The Syscall::Sbrk arm of Kernel::handle_syscall (lib.rs lines 461-533):
increment 0 returns the current break; a positive increment maps the new pages
and updates the break; a negative increment only updates the break (no
unmapping); every call returns the old break in a0 and advances the PC. -/
def sbrk (increment : Int) (tm : ThreadManager) (cpu : Cpu) (memory : Mem)
    (nff : Nat) :
    Except TrapError (Nat × ThreadManager × Cpu × Mem × Nat) :=
  match tm.current_thread with
  | none => Except.error (TrapError.handlerPanic
      "Sbrk called without current thread")
  | some current_handle =>
    let brk_ppn : Nat × Nat :=
      match tm.threads.lookup current_handle with
      | some tcb => (tcb.program_break, tcb.context.satp &&& 0x3FFFFF)
      | none => (0, 0)
    let current_break := brk_ppn.1
    let root_ppn := brk_ppn.2
    if increment = 0 then
      let cpu := Syscall.encode_result
        (Except.ok (SyscallReturn.value (current_break : Int))) cpu
      Except.ok (cpu.pc + 4, tm, cpu, memory, nff)
    else
      let new_break := u32_of_int ((current_break : Int) + increment)
      let old_page_end := ((current_break + PAGE_SIZE - 1) % 4294967296) &&& 0xFFFFF000
      let new_page_end := ((new_break + PAGE_SIZE - 1) % 4294967296) &&& 0xFFFFF000
      if 0 < increment then
        let mapped :=
          if old_page_end < new_page_end then
            sbrk_map_pages memory nff old_page_end new_page_end root_ppn
          else Except.ok (memory, nff)
        match mapped with
        | Except.error e => Except.error (TrapError.handlerPanic e)
        | Except.ok (memory, nff) =>
          let threads' := assocUpdate tm.threads current_handle
            (fun t => { t with program_break := new_break })
          let tm := { tm with threads := threads' }
          let cpu := Syscall.encode_result
            (Except.ok (SyscallReturn.value (current_break : Int))) cpu
          Except.ok (cpu.pc + 4, tm, cpu, memory, nff)
      else
        let threads' := assocUpdate tm.threads current_handle
          (fun t => { t with program_break := new_break })
        let tm := { tm with threads := threads' }
        let cpu := Syscall.encode_result
          (Except.ok (SyscallReturn.value (current_break : Int))) cpu
        Except.ok (cpu.pc + 4, tm, cpu, memory, nff)

/-! Kernel user-memory helpers (src/crates/ferrous-kernel/src/lib.rs lines
1050-1116). -/

/-- translate_vaddr from lib.rs: bare mode when the satp MSB is clear, otherwise
a two-level walk checking only the V bits; any fault is a HandlerPanic. -/
def translate_vaddr (memory : Mem) (satp vaddr : Nat) : Except TrapError Nat :=
  if satp &&& 0x80000000 = 0 then Except.ok vaddr
  else
    let root_ppn := satp &&& 0x3FFFFF
    let vpn1 := (vaddr >>> 22) &&& 0x3FF
    let vpn0 := (vaddr >>> 12) &&& 0x3FF
    let offset := vaddr &&& 0xFFF
    match memory.read_word (((root_ppn <<< 12) &&& 0xFFFFFFFF) + vpn1 * 4) with
    | Except.error _ => Except.error (TrapError.handlerPanic "L1 read error")
    | Except.ok l1_pte =>
      if l1_pte &&& PTE_V = 0 then
        Except.error (TrapError.handlerPanic "Page fault (L1 invalid)")
      else
        let l0_ppn := (l1_pte >>> 10) &&& 0x3FFFFF
        match memory.read_word (((l0_ppn <<< 12) &&& 0xFFFFFFFF) + vpn0 * 4) with
        | Except.error _ => Except.error (TrapError.handlerPanic "L0 read error")
        | Except.ok l0_pte =>
          if l0_pte &&& PTE_V = 0 then
            Except.error (TrapError.handlerPanic "Page fault (L0 invalid)")
          else
            let ppn := (l0_pte >>> 10) &&& 0x3FFFFF
            Except.ok (((ppn <<< 12) &&& 0xFFFFFFFF) ||| offset)

/-- The loop body of copy_to_user: byte i of src goes to virtual dest_ptr + i,
with a fresh translation per byte. -/
def copy_to_user_from (memory : Mem) (satp : Nat) (src : List Nat)
    (dest_ptr i : Nat) : Except TrapError Mem :=
  match src with
  | [] => Except.ok memory
  | b :: rest =>
    match translate_vaddr memory satp (dest_ptr + i) with
    | Except.error e => Except.error e
    | Except.ok paddr =>
      match memory.write_byte paddr b with
      | Except.error _ => Except.error (TrapError.handlerPanic "User write error")
      | Except.ok m => copy_to_user_from m satp rest dest_ptr (i + 1)

/-- copy_to_user from lib.rs: byte-wise copy into user memory. -/
def copy_to_user (memory : Mem) (satp : Nat) (src : List Nat) (dest_ptr : Nat) :
    Except TrapError Mem :=
  copy_to_user_from memory satp src dest_ptr 0

/-! Pipe read (src/crates/ferrous-kernel/src/fs/syscalls.rs, Syscall::FileRead
pipe branch, lines 272-338). -/

/-- The Syscall::FileRead arm of fs/syscalls.rs restricted to pipe descriptors
(lines 272-338): resolve the fd; a write-end or unknown pipe encodes u32::MAX; a
non-empty queue is drained up to len bytes into the user buffer with the count
in a0 and the PC advanced; an empty queue with the writer closed returns 0; an
empty queue with the writer open enqueues the caller on the pipe's wait queue,
blocks it and yields, leaving the blocked thread's saved PC at the ECALL. File
and socket descriptors take the separate file branch (lines 339-399), which is
outside this embedding and marked as a distinct error here. -/
def file_read_pipe (fd buf_ptr len : Nat) (tm : ThreadManager)
    (pipes : List (Nat × Pipe)) (memory : Mem) (cpu : Cpu) :
    Except TrapError (Nat × ThreadManager × List (Nat × Pipe) × Mem × Cpu) :=
  match tm.current_thread with
  | none => Except.error (TrapError.handlerPanic "FileRead: No current thread")
  | some current_handle =>
    match tm.threads.lookup current_handle with
    | none => Except.error (TrapError.handlerPanic "FileRead: current TCB missing")
    | some tcb =>
      let descriptor :=
        if fd < tcb.file_descriptors.length then tcb.file_descriptors.getD fd none
        else none
      let satp := tcb.context.satp
      match descriptor with
      | some (FileDescriptor.pipe pipe_id is_write) =>
        if is_write then
          let cpu := Syscall.encode_result
            (Except.error (SyscallError.invalidSyscallNumber 0)) cpu
          Except.ok (cpu.pc + 4, tm, pipes, memory, cpu)
        else
          match pipes.lookup pipe_id with
          | none =>
            let cpu := Syscall.encode_result
              (Except.error (SyscallError.invalidSyscallNumber 0)) cpu
            Except.ok (cpu.pc + 4, tm, pipes, memory, cpu)
          | some pipe =>
            if pipe.buffer.isEmpty then
              if pipe.write_open = false then
                let cpu := Syscall.encode_result
                  (Except.ok (SyscallReturn.value 0)) cpu
                Except.ok (cpu.pc + 4, tm, pipes, memory, cpu)
              else
                let pipes := assocUpdate pipes pipe_id (fun p =>
                  { p with wait_queue := p.wait_queue ++ [current_handle] })
                let tm := tm.block_current_thread
                let yielded := tm.yield_thread cpu
                if yielded.2.2 = false then Except.error TrapError.halt
                else Except.ok (yielded.2.1.pc, yielded.1, pipes, memory, yielded.2.1)
            else
              let read_bytes := pipe.buffer.take len
              let pipes := assocUpdate pipes pipe_id (fun p =>
                { p with buffer := p.buffer.drop len })
              match copy_to_user memory satp read_bytes buf_ptr with
              | Except.error e => Except.error e
              | Except.ok memory =>
                let cpu := Syscall.encode_result
                  (Except.ok (SyscallReturn.value (read_bytes.length : Int))) cpu
                Except.ok (cpu.pc + 4, tm, pipes, memory, cpu)
      | some (FileDescriptor.file _ _ _) =>
        Except.error (TrapError.handlerPanic
          "file descriptor: file branch not embedded")
      | some (FileDescriptor.socket _) =>
        Except.error (TrapError.handlerPanic
          "socket descriptor: file branch not embedded")
      | none =>
        let cpu := Syscall.encode_result
          (Except.error (SyscallError.invalidSyscallNumber 0)) cpu
        Except.ok (cpu.pc + 4, tm, pipes, memory, cpu)

/-! File system (src/crates/ferrous-fs/src/lib.rs and
src/crates/ferrous-kernel/src/fs/mod.rs). -/

def BLOCK_SIZE : Nat := 512
def INODE_DIRECT_POINTERS : Nat := 12

/-- FileType from ferrous-fs. -/
inductive FileType where
  | file
  | directory
deriving DecidableEq, Repr

/-- Inode from ferrous-fs: size in bytes, 12 direct block pointers, one indirect
pointer (a pointer value of 0 denotes a sparse block). -/
structure Inode where
  id : Nat
  file_type : FileType
  size : Nat
  direct_ptrs : List Nat
  indirect_ptr : Nat
deriving DecidableEq, Repr

/-- The unaligned little-endian u32 read that fs/mod.rs performs inside the
indirect block buffer. -/
def le_u32_at (buf : List Nat) (off : Nat) : Nat :=
  buf.getD off 0 ||| (buf.getD (off + 1) 0 <<< 8) |||
    (buf.getD (off + 2) 0 <<< 16) ||| (buf.getD (off + 3) 0 <<< 24)

/-- The block-resolution step of FileSystem::read_data (fs/mod.rs lines 142-177):
a logical block below 12 uses the direct pointers; below 12+128 goes through the
indirect block (an indirect pointer of 0 resolves to 0, i.e. sparse); anything
larger is the double-indirect error. read_sector abstracts
fs/block.rs::read_sector (the 512-byte sector fetched through the block-device
MMIO window); none models a failed sector read. -/
def resolve_block (read_sector : Nat → Option (List Nat)) (inode : Inode)
    (block_index : Nat) : Except String Nat :=
  if block_index < INODE_DIRECT_POINTERS then
    Except.ok (inode.direct_ptrs.getD block_index 0)
  else if block_index - INODE_DIRECT_POINTERS < BLOCK_SIZE / 4 then
    if inode.indirect_ptr = 0 then Except.ok 0
    else
      match read_sector inode.indirect_ptr with
      | none => Except.error "Indirect Block Read Error"
      | some indirect_buf =>
        Except.ok (le_u32_at indirect_buf ((block_index - INODE_DIRECT_POINTERS) * 4))
  else Except.error "Double indirect pointers not supported yet"

/-- The while loop of FileSystem::read_data (fs/mod.rs lines 136-201): walk the
spanned blocks from current_offset to end_offset, appending either zeros (sparse
block, no sector read) or the relevant slice of the freshly read sector. -/
def read_data_loop (read_sector : Nat → Option (List Nat)) (inode : Inode)
    (current_offset end_offset : Nat) (acc : List Nat) : Except String (List Nat) :=
  if _h : current_offset < end_offset then
    let block_index := current_offset / BLOCK_SIZE
    let offset_in_block := current_offset % BLOCK_SIZE
    let bytes_to_read := min (BLOCK_SIZE - offset_in_block) (end_offset - current_offset)
    match resolve_block read_sector inode block_index with
    | Except.error e => Except.error e
    | Except.ok block_id =>
      if block_id = 0 then
        read_data_loop read_sector inode (current_offset + bytes_to_read) end_offset
          (acc ++ List.replicate bytes_to_read 0)
      else
        match read_sector block_id with
        | none => Except.error "Data Read Error"
        | some block_buf =>
          read_data_loop read_sector inode (current_offset + bytes_to_read) end_offset
            (acc ++ ((block_buf.drop offset_in_block).take bytes_to_read))
  else Except.ok acc
termination_by end_offset - current_offset
decreasing_by
  all_goals
    simp only [BLOCK_SIZE]
    omega

/-- FileSystem::read_data (fs/mod.rs lines 120-204): at or past EOF return 0
bytes; otherwise walk from offset to end_offset =
(offset + buffer.len() as u32).min(inode.size), where the usize-to-u32 cast
truncates mod 2^32 and the u32 addition wraps mod 2^32 (fs/mod.rs line 133).
The returned list is the filled prefix of the caller's buffer; its length is
the byte count the Rust function returns. -/
def read_data (read_sector : Nat → Option (List Nat)) (inode : Inode)
    (offset buf_len : Nat) : Except String (List Nat) :=
  if inode.size ≤ offset then Except.ok []
  else
    read_data_loop read_sector inode offset
      (min ((offset + buf_len % 4294967296) % 4294967296) inode.size) []

/-! Helper lemmas about the association-list embedding of BTreeMap. -/

theorem lookup_assocUpdate_self {α : Type} (l : List (Nat × α)) (k : Nat) (f : α → α) :
    (assocUpdate l k f).lookup k = (l.lookup k).map f := by
  induction l with
  | nil => simp [assocUpdate]
  | cons p rest ih =>
    obtain ⟨k', v⟩ := p
    by_cases hk : k' = k
    · subst hk
      simp [assocUpdate, List.lookup]
    · simp only [assocUpdate, hk, if_false, List.lookup]
      have : (k == k') = false := by
        simp [Ne.symm hk]
      simp [this, ih]

theorem lookup_assocUpdate_ne {α : Type} (l : List (Nat × α)) (k k' : Nat) (f : α → α)
    (hne : k' ≠ k) :
    (assocUpdate l k f).lookup k' = l.lookup k' := by
  induction l with
  | nil => simp [assocUpdate]
  | cons p rest ih =>
    obtain ⟨a, v⟩ := p
    by_cases ha : a = k
    · subst ha
      have : (k' == a) = false := by simp [hne]
      simp [assocUpdate, List.lookup, this]
    · simp only [assocUpdate, ha, if_false, List.lookup]
      by_cases hb : k' = a
      · subst hb; simp
      · have : (k' == a) = false := by simp [hb]
        simp [this, ih]

theorem u32_of_int_coe (n : Nat) (h : n < 4294967296) :
    u32_of_int (n : Int) = n := by
  simp only [u32_of_int]
  omega

theorem a0_write_reg_10 (cpu : Cpu) (v : Nat) (h : 10 < cpu.regs.length) :
    a0 (cpu.write_reg 10 v) = v := by
  simp only [a0, Cpu.write_reg]
  norm_num
  rw [List.getElem?_set_self (by simpa using h)]
  simp

/-! C9: UART carriage-return normalization. -/

/-- C9: a read of the UART receiver buffer register never returns the byte 13
(carriage return): when the next buffered byte is 13 the read returns 10 (line
feed) and also consumes an immediately following buffered 10, so a lone CR and a
CRLF pair are both observed by the guest as a single LF. -/
theorem uart_rbr_never_returns_cr (input_buffer : List Nat) :
    (uart_read_rbr input_buffer).1 ≠ 13 ∧
    (∀ t, input_buffer = 13 :: 10 :: t → uart_read_rbr input_buffer = (10, t)) ∧
    (∀ t, input_buffer = 13 :: t → (∀ u, t ≠ 10 :: u) →
      uart_read_rbr input_buffer = (10, t)) := by
  refine ⟨?_, ?_, ?_⟩
  · match input_buffer with
    | [] => simp [uart_read_rbr]
    | byte :: rest =>
      by_cases hb : byte = 13
      · subst hb
        match rest with
        | [] => simp [uart_read_rbr]
        | next :: rest2 =>
          by_cases hn : next = 10 <;> simp [uart_read_rbr, hn]
      · simp [uart_read_rbr, hb]
  · rintro t rfl
    simp [uart_read_rbr]
  · rintro t rfl hnot
    match t with
    | [] => simp [uart_read_rbr]
    | next :: rest2 =>
      have hn : next ≠ 10 := by
        intro h
        exact hnot rest2 (by rw [h])
      simp [uart_read_rbr, hn]

/-- C9 witness: a CRLF pair followed by the letter A collapses to a single LF. -/
theorem uart_rbr_never_returns_cr_witness :
    uart_read_rbr [13, 10, 65] = (10, [65]) :=
  (uart_rbr_never_returns_cr [13, 10, 65]).2.1 [65] rfl

/-! C5: a memory fault while reading the instruction word. -/

/-- C5 counterexample: with satp bare the PC (0) translates to itself as Execute,
the word read at physical address 0 fails (below RAM), and step returns the fatal
Err(VmError::Memory(OutOfBounds)) instead of the claimed
StepResult::Trap(InstructionAccessFault). -/
theorem step_fetch_fatal_counterexample :
    step_fetch (Cpu.mk 0 (List.replicate 32 0) 0 PrivilegeMode.user)
        (Mem.mk 0x80000000 16 [])
        = Except.error (VmError.memory (MemoryError.outOfBounds 0)) ∧
      step_fetch (Cpu.mk 0 (List.replicate 32 0) 0 PrivilegeMode.user)
        (Mem.mk 0x80000000 16 [])
        ≠ Except.ok (FetchResult.trap (TrapCause.instructionAccessFault 0)) := by
  decide

/-- C5 amended: when the PC translates successfully as Execute but reading the
instruction word fails, the step aborts with the fatal error
Err(VmError::Memory(e)) carrying the memory error; no StepResult (in particular
no InstructionAccessFault trap) is produced, so nothing reaches the trap
handler. -/
theorem step_fetch_memory_fault_is_fatal (cpu : Cpu) (memory : Mem) (pa : Nat)
    (e : MemoryError)
    (htr : translate cpu.pc AccessType.execute cpu.satp cpu.mode memory
      = Except.ok pa)
    (hrd : memory.read_word pa = Except.error e) :
    step_fetch cpu memory = Except.error (VmError.memory e) ∧
      ∀ r, step_fetch cpu memory ≠ Except.ok r := by
  have heq : step_fetch cpu memory = Except.error (VmError.memory e) := by
    unfold step_fetch
    rw [htr]
    dsimp only
    rw [hrd]
  refine ⟨heq, ?_⟩
  intro r
  rw [heq]
  simp

/-- C5 witness: the amended theorem applied to the concrete counterexample
machine. -/
theorem step_fetch_memory_fault_is_fatal_witness :
    step_fetch (Cpu.mk 0 (List.replicate 32 0) 0 PrivilegeMode.user)
        (Mem.mk 0x80000000 16 [])
        = Except.error (VmError.memory (MemoryError.outOfBounds 0)) ∧
      ∀ r, step_fetch (Cpu.mk 0 (List.replicate 32 0) 0 PrivilegeMode.user)
        (Mem.mk 0x80000000 16 []) ≠ Except.ok r :=
  step_fetch_memory_fault_is_fatal
    (Cpu.mk 0 (List.replicate 32 0) 0 PrivilegeMode.user)
    (Mem.mk 0x80000000 16 []) 0 (MemoryError.outOfBounds 0)
    (by decide) (by decide)

/-! C10: waitpid on the caller's own handle. -/

/-- C10: a waitpid(tid) syscall with tid equal to the calling thread's own handle
returns the error sentinel u32::MAX in a0, leaves the caller Running (its thread
table entry and the whole thread manager are unchanged, so it is not marked
Waiting and does not block), and the returned resume address advances the PC
past the ECALL. -/
theorem waitpid_self_is_error (h : Nat) (tm : ThreadManager) (cpu : Cpu)
    (tcb : ThreadControlBlock)
    (h0 : h ≠ 0)
    (hcur : tm.current_thread = some h)
    (hlk : tm.threads.lookup h = some tcb)
    (hrun : tcb.state = ThreadState.running)
    (hreg : 10 < cpu.regs.length) :
    waitpid h tm cpu = Except.ok (cpu.pc + 4, tm,
        Syscall.encode_result
          (Except.error (SyscallError.invalidSyscallNumber 0)) cpu) ∧
      a0 (Syscall.encode_result
        (Except.error (SyscallError.invalidSyscallNumber 0)) cpu) = u32_MAX ∧
      (Syscall.encode_result
        (Except.error (SyscallError.invalidSyscallNumber 0)) cpu).pc = cpu.pc := by
  have hwait : tm.wait_current_thread h = Except.error "Cannot wait on self" := by
    unfold ThreadManager.wait_current_thread
    rw [hlk]
    dsimp only
    rw [hrun]
    dsimp only
    rw [hcur]
    dsimp only
    rw [if_pos rfl]
  refine ⟨?_, ?_, ?_⟩
  · unfold waitpid
    rw [if_neg h0, hwait]
    rfl
  · exact a0_write_reg_10 cpu u32_MAX hreg
  · simp [Syscall.encode_result, Cpu.write_reg]

/-- C10 witness: a one-thread system whose only thread waits on itself. -/
theorem waitpid_self_is_error_witness :
    waitpid 1
        (ThreadManager.mk
          [(1, ThreadControlBlock.mk 1 ThreadState.running
            (SavedContext.mk 0 (List.replicate 32 0) 0 PrivilegeMode.user)
            0 0 0 [])] [] (some 1) 2)
        (Cpu.mk 100 (List.replicate 32 0) 0 PrivilegeMode.user)
      = Except.ok (104,
          ThreadManager.mk
            [(1, ThreadControlBlock.mk 1 ThreadState.running
              (SavedContext.mk 0 (List.replicate 32 0) 0 PrivilegeMode.user)
              0 0 0 [])] [] (some 1) 2,
          Syscall.encode_result
            (Except.error (SyscallError.invalidSyscallNumber 0))
            (Cpu.mk 100 (List.replicate 32 0) 0 PrivilegeMode.user)) ∧
      a0 (Syscall.encode_result
        (Except.error (SyscallError.invalidSyscallNumber 0))
        (Cpu.mk 100 (List.replicate 32 0) 0 PrivilegeMode.user)) = u32_MAX ∧
      (Syscall.encode_result
        (Except.error (SyscallError.invalidSyscallNumber 0))
        (Cpu.mk 100 (List.replicate 32 0) 0 PrivilegeMode.user)).pc = 100 :=
  waitpid_self_is_error 1
    (ThreadManager.mk
      [(1, ThreadControlBlock.mk 1 ThreadState.running
        (SavedContext.mk 0 (List.replicate 32 0) 0 PrivilegeMode.user)
        0 0 0 [])] [] (some 1) 2)
    (Cpu.mk 100 (List.replicate 32 0) 0 PrivilegeMode.user)
    (ThreadControlBlock.mk 1 ThreadState.running
      (SavedContext.mk 0 (List.replicate 32 0) 0 PrivilegeMode.user)
      0 0 0 [])
    (by decide) rfl (by decide) rfl (by decide)

/-! C3: mutex release. -/

/-- C3: for every mutex_release(id) syscall: a caller that is not the recorded
owner (or an id that does not exist) gets the error sentinel u32::MAX in a0 with
the mutex table unchanged; an owner releasing with a non-empty wait queue hands
the mutex to the dequeued front waiter and wakes it (Blocked to Ready plus
enqueue on the ready queue); an owner releasing with an empty queue clears the
owner. The resume address always advances past the ECALL. -/
theorem mutex_release_spec (id caller : Nat) (mutexes : List (Nat × Mutex))
    (tm : ThreadManager) (cpu : Cpu)
    (hcur : tm.current_thread = some caller)
    (hreg : 10 < cpu.regs.length) :
    (mutexes.lookup id = none →
      mutex_release id mutexes tm cpu
        = Except.ok (cpu.pc + 4, mutexes, tm,
            Syscall.encode_result
              (Except.error (SyscallError.invalidSyscallNumber 0)) cpu)) ∧
    (∀ mu, mutexes.lookup id = some mu → mu.owner ≠ some caller →
      mutex_release id mutexes tm cpu
        = Except.ok (cpu.pc + 4, mutexes, tm,
            Syscall.encode_result
              (Except.error (SyscallError.invalidSyscallNumber 0)) cpu)) ∧
    (∀ mu, mutexes.lookup id = some mu → mu.owner = some caller →
      mu.wait_queue = [] →
      mutex_release id mutexes tm cpu
        = Except.ok (cpu.pc + 4,
            assocUpdate mutexes id (fun _ => { mu with owner := none }), tm,
            Syscall.encode_result (Except.ok SyscallReturn.success) cpu)) ∧
    (∀ mu w rest, mutexes.lookup id = some mu → mu.owner = some caller →
      mu.wait_queue = w :: rest →
      mutex_release id mutexes tm cpu
        = Except.ok (cpu.pc + 4,
            assocUpdate mutexes id
              (fun _ => { mu with owner := some w, wait_queue := rest }),
            tm.wake_thread w,
            Syscall.encode_result (Except.ok SyscallReturn.success) cpu)) ∧
    (∀ w wtcb, tm.threads.lookup w = some wtcb →
      wtcb.state = ThreadState.blocked →
      (tm.wake_thread w).ready_queue = tm.ready_queue ++ [w] ∧
      (tm.wake_thread w).threads.lookup w
        = some { wtcb with state := ThreadState.ready }) ∧
    a0 (Syscall.encode_result
      (Except.error (SyscallError.invalidSyscallNumber 0)) cpu) = u32_MAX ∧
    a0 (Syscall.encode_result (Except.ok SyscallReturn.success) cpu) = 0 := by
  refine ⟨?_, ?_, ?_, ?_, ?_, ?_, ?_⟩
  · intro hnone
    unfold mutex_release
    rw [hcur]
    dsimp only
    rw [hnone]
    rfl
  · intro mu hlk hown
    unfold mutex_release
    rw [hcur]
    dsimp only
    rw [hlk]
    dsimp only
    rw [if_neg hown]
    rfl
  · intro mu hlk hown hq
    unfold mutex_release
    rw [hcur]
    dsimp only
    rw [hlk]
    dsimp only
    rw [if_pos hown, hq]
    rfl
  · intro mu w rest hlk hown hq
    unfold mutex_release
    rw [hcur]
    dsimp only
    rw [hlk]
    dsimp only
    rw [if_pos hown, hq]
    rfl
  · intro w wtcb hlkw hst
    unfold ThreadManager.wake_thread
    rw [hlkw]
    dsimp only
    rw [if_pos hst]
    refine ⟨rfl, ?_⟩
    dsimp only
    rw [lookup_assocUpdate_self, hlkw]
    rfl
  · exact a0_write_reg_10 cpu u32_MAX hreg
  · exact a0_write_reg_10 cpu 0 hreg

/-- C3 witness: a two-thread system where thread 1 owns mutex 7 and thread 2 is
blocked on it; the release hands the mutex to thread 2 and wakes it. -/
theorem mutex_release_spec_witness :
    mutex_release 7 [(7, Mutex.mk 7 (some 1) [2])]
        (ThreadManager.mk
          [(1, ThreadControlBlock.mk 1 ThreadState.running
            (SavedContext.mk 0 (List.replicate 32 0) 0 PrivilegeMode.user) 0 0 0 []),
           (2, ThreadControlBlock.mk 2 ThreadState.blocked
            (SavedContext.mk 0 (List.replicate 32 0) 0 PrivilegeMode.user) 0 0 0 [])]
          [] (some 1) 3)
        (Cpu.mk 100 (List.replicate 32 0) 0 PrivilegeMode.user)
      = Except.ok (104, [(7, Mutex.mk 7 (some 2) [])],
          (ThreadManager.mk
            [(1, ThreadControlBlock.mk 1 ThreadState.running
              (SavedContext.mk 0 (List.replicate 32 0) 0 PrivilegeMode.user) 0 0 0 []),
             (2, ThreadControlBlock.mk 2 ThreadState.blocked
              (SavedContext.mk 0 (List.replicate 32 0) 0 PrivilegeMode.user) 0 0 0 [])]
            [] (some 1) 3).wake_thread 2,
          Syscall.encode_result (Except.ok SyscallReturn.success)
            (Cpu.mk 100 (List.replicate 32 0) 0 PrivilegeMode.user)) :=
  (mutex_release_spec 7 1 [(7, Mutex.mk 7 (some 1) [2])]
    (ThreadManager.mk
      [(1, ThreadControlBlock.mk 1 ThreadState.running
        (SavedContext.mk 0 (List.replicate 32 0) 0 PrivilegeMode.user) 0 0 0 []),
       (2, ThreadControlBlock.mk 2 ThreadState.blocked
        (SavedContext.mk 0 (List.replicate 32 0) 0 PrivilegeMode.user) 0 0 0 [])]
      [] (some 1) 3)
    (Cpu.mk 100 (List.replicate 32 0) 0 PrivilegeMode.user)
    rfl (by decide)).2.2.2.1 (Mutex.mk 7 (some 1) [2]) 2 [] rfl rfl rfl

/-! C8: thread exit wakes its waiters. -/

theorem mem_of_lookup_eq_some {α : Type} {l : List (Nat × α)} {k : Nat} {v : α}
    (h : List.lookup k l = some v) : (k, v) ∈ l := by
  induction l with
  | nil => simp at h
  | cons p rest ih =>
    obtain ⟨a, b⟩ := p
    by_cases hk : k = a
    · subst hk
      simp [List.lookup] at h
      subst h
      exact List.mem_cons_self _ _
    · have hb : (k == a) = false := by simp [hk]
      rw [List.lookup, hb] at h
      exact List.mem_cons_of_mem _ (ih h)

theorem lookup_eq_some_of_mem_nodup {α : Type} {l : List (Nat × α)} {k : Nat}
    {v : α} (hnd : (l.map Prod.fst).Nodup) (hm : (k, v) ∈ l) :
    List.lookup k l = some v := by
  induction l with
  | nil => simp at hm
  | cons p rest ih =>
    obtain ⟨a, b⟩ := p
    rw [List.map_cons, List.nodup_cons] at hnd
    rcases List.mem_cons.mp hm with heq | hm'
    · obtain ⟨rfl, rfl⟩ := Prod.mk.injEq .. ▸ heq
      simp [List.lookup]
    · have hk : k ≠ a := by
        rintro rfl
        exact hnd.1 (List.mem_map.mpr ⟨(k, v), hm', rfl⟩)
      have hb : (k == a) = false := by simp [hk]
      rw [List.lookup, hb]
      exact ih hnd.2 hm'

theorem waiting_on_eq_true {cur : Nat} {p : Nat × ThreadControlBlock} :
    waiting_on cur p = true ↔ p.2.state = ThreadState.waiting cur := by
  unfold waiting_on
  cases hs : p.2.state <;> simp

theorem exit_fold_current_thread (code : Int) (l : List Nat) (tm : ThreadManager) :
    (l.foldl (exit_wake_step code) tm).current_thread = tm.current_thread := by
  induction l generalizing tm with
  | nil => rfl
  | cons k rest ih =>
    rw [List.foldl_cons, ih]
    unfold exit_wake_step
    cases h : tm.threads.lookup k <;> rfl

theorem exit_wake_step_rq (code : Int) (tm : ThreadManager) (k : Nat) :
    ∃ s, (exit_wake_step code tm k).ready_queue = tm.ready_queue ++ s := by
  unfold exit_wake_step
  cases h : tm.threads.lookup k with
  | none => exact ⟨[], by simp⟩
  | some _ => exact ⟨[k], rfl⟩

theorem exit_fold_rq_extends (code : Int) (l : List Nat) (tm : ThreadManager) :
    ∃ s, (l.foldl (exit_wake_step code) tm).ready_queue = tm.ready_queue ++ s := by
  induction l generalizing tm with
  | nil => exact ⟨[], by simp⟩
  | cons k rest ih =>
    rw [List.foldl_cons]
    obtain ⟨t, ht⟩ := exit_wake_step_rq code tm k
    obtain ⟨s, hs⟩ := ih (exit_wake_step code tm k)
    exact ⟨t ++ s, by rw [hs, ht, List.append_assoc]⟩

theorem exit_fold_lookup_notin (code : Int) (l : List Nat) (tm : ThreadManager)
    (h : Nat) (hnin : h ∉ l) :
    (l.foldl (exit_wake_step code) tm).threads.lookup h
      = tm.threads.lookup h := by
  induction l generalizing tm with
  | nil => rfl
  | cons k rest ih =>
    have hk : h ≠ k := fun h' => hnin (h' ▸ List.mem_cons_self k rest)
    have hrest : h ∉ rest := fun hh => hnin (List.mem_cons_of_mem k hh)
    rw [List.foldl_cons, ih _ hrest]
    unfold exit_wake_step
    cases hl : tm.threads.lookup k with
    | none => rfl
    | some _ =>
      dsimp only
      exact lookup_assocUpdate_ne _ k h _ hk

theorem exit_fold_lookup_in (code : Int) (l : List Nat) (tm : ThreadManager)
    (h : Nat) (tcb : ThreadControlBlock)
    (hnd : l.Nodup) (hin : h ∈ l) (hlk : tm.threads.lookup h = some tcb) :
    (l.foldl (exit_wake_step code) tm).threads.lookup h
        = some (wake_with_code code tcb) ∧
      h ∈ (l.foldl (exit_wake_step code) tm).ready_queue := by
  induction l generalizing tm with
  | nil => simp at hin
  | cons k rest ih =>
    rcases List.mem_cons.mp hin with rfl | hin'
    · have hstep : (exit_wake_step code tm h).threads.lookup h
          = some (wake_with_code code tcb) := by
        unfold exit_wake_step
        rw [hlk]
        dsimp only
        rw [lookup_assocUpdate_self, hlk]
        rfl
      have hrq : (exit_wake_step code tm h).ready_queue
          = tm.ready_queue ++ [h] := by
        unfold exit_wake_step
        rw [hlk]
      have hnin : h ∉ rest := (List.nodup_cons.mp hnd).1
      constructor
      · rw [List.foldl_cons, exit_fold_lookup_notin code rest _ h hnin, hstep]
      · obtain ⟨s, hs⟩ := exit_fold_rq_extends code rest (exit_wake_step code tm h)
        rw [List.foldl_cons, hs, hrq]
        simp
    · have hk : k ≠ h := by
        rintro rfl
        exact (List.nodup_cons.mp hnd).1 hin'
      have hlk' : (exit_wake_step code tm k).threads.lookup h = some tcb := by
        unfold exit_wake_step
        cases hl : tm.threads.lookup k with
        | none => exact hlk
        | some _ =>
          dsimp only
          rw [lookup_assocUpdate_ne _ k h _ (Ne.symm hk)]
          exact hlk
      rw [List.foldl_cons]
      exact ih _ (List.nodup_cons.mp hnd).2 hin' hlk'

/-- C8: when the current thread exits with code c, its TCB becomes
Terminated(c) and current_thread is cleared; every thread that was
Waiting(target = exiting thread) becomes Ready, is enqueued on the ready queue,
and has c written into the a0 slot (register 10) of its saved context (so a
pending waitpid returns c when that waiter next runs); every other thread's TCB,
state and saved context included, is unchanged. -/
theorem exit_current_thread_spec (tm : ThreadManager) (code : Int) (cur : Nat)
    (ctcb : ThreadControlBlock)
    (hcur : tm.current_thread = some cur)
    (hlk : tm.threads.lookup cur = some ctcb)
    (hrun : ctcb.state = ThreadState.running)
    (hnd : (tm.threads.map Prod.fst).Nodup) :
    (tm.exit_current_thread code).current_thread = none ∧
    (tm.exit_current_thread code).threads.lookup cur
      = some { ctcb with state := ThreadState.terminated code } ∧
    (∀ h tcb, tm.threads.lookup h = some tcb →
      tcb.state = ThreadState.waiting cur →
      (tm.exit_current_thread code).threads.lookup h
          = some (wake_with_code code tcb) ∧
        h ∈ (tm.exit_current_thread code).ready_queue) ∧
    (∀ h tcb, tm.threads.lookup h = some tcb → h ≠ cur →
      tcb.state ≠ ThreadState.waiting cur →
      (tm.exit_current_thread code).threads.lookup h = some tcb) := by
  have htwnd : ((tm.threads.filter (waiting_on cur)).map Prod.fst).Nodup := by
    refine List.Nodup.sublist ?_ hnd
    exact List.Sublist.map Prod.fst (List.filter_sublist _)
  have hmem_tw : ∀ h : Nat,
      h ∈ (tm.threads.filter (waiting_on cur)).map Prod.fst ↔
        ∃ tcb, (h, tcb) ∈ tm.threads ∧ tcb.state = ThreadState.waiting cur := by
    intro h
    constructor
    · intro hm
      obtain ⟨p, hpf, hph⟩ := List.mem_map.mp hm
      obtain ⟨hpmem, hpw⟩ := List.mem_filter.mp hpf
      refine ⟨p.2, ?_, waiting_on_eq_true.mp hpw⟩
      have : p = (h, p.2) := by
        rw [← hph]
      rw [← this]
      exact hpmem
    · rintro ⟨tcb, hmem, hw⟩
      refine List.mem_map.mpr ⟨(h, tcb), List.mem_filter.mpr ⟨hmem, ?_⟩, rfl⟩
      exact waiting_on_eq_true.mpr hw
  have hcur_nin : cur ∉ (tm.threads.filter (waiting_on cur)).map Prod.fst := by
    intro hm
    obtain ⟨tcb', hmem, hw⟩ := (hmem_tw cur).mp hm
    have := lookup_eq_some_of_mem_nodup hnd hmem
    rw [hlk] at this
    obtain rfl : ctcb = tcb' := by injection this
    rw [hrun] at hw
    cases hw
  have hE : tm.exit_current_thread code
      = { ((tm.threads.filter (waiting_on cur)).map Prod.fst).foldl
            (exit_wake_step code) tm with
          threads := assocUpdate
            (((tm.threads.filter (waiting_on cur)).map Prod.fst).foldl
              (exit_wake_step code) tm).threads cur
            (fun t => { t with state := ThreadState.terminated code }),
          current_thread := none } := by
    unfold ThreadManager.exit_current_thread
    rw [hcur]
  refine ⟨?_, ?_, ?_, ?_⟩
  · rw [hE]
  · rw [hE]
    dsimp only
    rw [lookup_assocUpdate_self,
      exit_fold_lookup_notin code _ tm cur hcur_nin, hlk]
    rfl
  · intro h tcb hlkh hw
    have hne : h ≠ cur := by
      rintro rfl
      rw [hlkh] at hlk
      obtain rfl : tcb = ctcb := by injection hlk
      rw [hw] at hrun
      cases hrun
    have hin : h ∈ (tm.threads.filter (waiting_on cur)).map Prod.fst :=
      (hmem_tw h).mpr ⟨tcb, mem_of_lookup_eq_some hlkh, hw⟩
    obtain ⟨hfold, hrq⟩ := exit_fold_lookup_in code _ tm h tcb htwnd hin hlkh
    constructor
    · rw [hE]
      dsimp only
      rw [lookup_assocUpdate_ne _ cur h _ hne]
      exact hfold
    · rw [hE]
      exact hrq
  · intro h tcb hlkh hne hnw
    have hnin : h ∉ (tm.threads.filter (waiting_on cur)).map Prod.fst := by
      intro hm
      obtain ⟨tcb', hmem, hw⟩ := (hmem_tw h).mp hm
      have := lookup_eq_some_of_mem_nodup hnd hmem
      rw [hlkh] at this
      obtain rfl : tcb = tcb' := by injection this
      exact hnw hw
    rw [hE]
    dsimp only
    rw [lookup_assocUpdate_ne _ cur h _ hne,
      exit_fold_lookup_notin code _ tm h hnin]
    exact hlkh

/-- C8 witness: thread 1 exits with code 42 while thread 2 waits on it and
thread 3 is unrelated. -/
theorem exit_current_thread_spec_witness :
    ((ThreadManager.mk
        [(1, ThreadControlBlock.mk 1 ThreadState.running
          (SavedContext.mk 0 (List.replicate 32 0) 0 PrivilegeMode.user) 0 0 0 []),
         (2, ThreadControlBlock.mk 2 (ThreadState.waiting 1)
          (SavedContext.mk 0 (List.replicate 32 0) 0 PrivilegeMode.user) 0 0 0 []),
         (3, ThreadControlBlock.mk 3 ThreadState.ready
          (SavedContext.mk 0 (List.replicate 32 0) 0 PrivilegeMode.user) 0 0 0 [])]
        [3] (some 1) 4).exit_current_thread 42).threads.lookup 2
        = some (wake_with_code 42
            (ThreadControlBlock.mk 2 (ThreadState.waiting 1)
              (SavedContext.mk 0 (List.replicate 32 0) 0 PrivilegeMode.user)
              0 0 0 [])) ∧
      2 ∈ ((ThreadManager.mk
        [(1, ThreadControlBlock.mk 1 ThreadState.running
          (SavedContext.mk 0 (List.replicate 32 0) 0 PrivilegeMode.user) 0 0 0 []),
         (2, ThreadControlBlock.mk 2 (ThreadState.waiting 1)
          (SavedContext.mk 0 (List.replicate 32 0) 0 PrivilegeMode.user) 0 0 0 []),
         (3, ThreadControlBlock.mk 3 ThreadState.ready
          (SavedContext.mk 0 (List.replicate 32 0) 0 PrivilegeMode.user) 0 0 0 [])]
        [3] (some 1) 4).exit_current_thread 42).ready_queue :=
  (exit_current_thread_spec
    (ThreadManager.mk
      [(1, ThreadControlBlock.mk 1 ThreadState.running
        (SavedContext.mk 0 (List.replicate 32 0) 0 PrivilegeMode.user) 0 0 0 []),
       (2, ThreadControlBlock.mk 2 (ThreadState.waiting 1)
        (SavedContext.mk 0 (List.replicate 32 0) 0 PrivilegeMode.user) 0 0 0 []),
       (3, ThreadControlBlock.mk 3 ThreadState.ready
        (SavedContext.mk 0 (List.replicate 32 0) 0 PrivilegeMode.user) 0 0 0 [])]
      [3] (some 1) 4) 42 1
    (ThreadControlBlock.mk 1 ThreadState.running
      (SavedContext.mk 0 (List.replicate 32 0) 0 PrivilegeMode.user) 0 0 0 [])
    rfl rfl rfl (by decide)).2.2.1 2
    (ThreadControlBlock.mk 2 (ThreadState.waiting 1)
      (SavedContext.mk 0 (List.replicate 32 0) 0 PrivilegeMode.user) 0 0 0 [])
    rfl rfl

theorem pc_encode_result (res : Except SyscallError SyscallReturn) (cpu : Cpu) :
    (Syscall.encode_result res cpu).pc = cpu.pc := by
  cases res with
  | ok r => cases r <;> rfl
  | error e => rfl

theorem regs_length_encode (res : Except SyscallError SyscallReturn) (cpu : Cpu) :
    (Syscall.encode_result res cpu).regs.length = cpu.regs.length := by
  cases res with
  | ok r => cases r <;> simp [Syscall.encode_result, Cpu.write_reg]
  | error e => simp [Syscall.encode_result, Cpu.write_reg]

theorem a0_encode_value_coe (cpu : Cpu) (v : Nat) (hreg : 10 < cpu.regs.length)
    (hv : v < 4294967296) :
    a0 (Syscall.encode_result (Except.ok (SyscallReturn.value (v : Int))) cpu)
      = v := by
  simp only [Syscall.encode_result]
  rw [u32_of_int_coe v hv]
  exact a0_write_reg_10 cpu v hreg

/-! C4: sbrk round trip. -/

theorem sbrk_zero_eq (tm : ThreadManager) (cpu : Cpu) (memory : Mem) (nff : Nat)
    (caller : Nat) (tcb : ThreadControlBlock)
    (hcur : tm.current_thread = some caller)
    (hlk : tm.threads.lookup caller = some tcb) :
    sbrk 0 tm cpu memory nff
      = Except.ok (cpu.pc + 4, tm,
          Syscall.encode_result
            (Except.ok (SyscallReturn.value (tcb.program_break : Int))) cpu,
          memory, nff) := by
  unfold sbrk
  rw [hcur]
  dsimp only
  rw [hlk]
  dsimp only
  rw [if_pos rfl]
  rfl

theorem sbrk_neg_eq (inc : Int) (tm : ThreadManager) (cpu : Cpu) (memory : Mem)
    (nff : Nat) (caller : Nat) (tcb : ThreadControlBlock)
    (hcur : tm.current_thread = some caller)
    (hlk : tm.threads.lookup caller = some tcb)
    (hneg : inc < 0) :
    sbrk inc tm cpu memory nff
      = Except.ok (cpu.pc + 4,
          { tm with threads := assocUpdate tm.threads caller (fun t =>
              { t with program_break :=
                  u32_of_int ((tcb.program_break : Int) + inc) }) },
          Syscall.encode_result
            (Except.ok (SyscallReturn.value (tcb.program_break : Int))) cpu,
          memory, nff) := by
  unfold sbrk
  rw [hcur]
  dsimp only
  rw [hlk]
  dsimp only
  rw [if_neg (by omega), if_neg (by omega)]
  rfl

/-- C4: for a thread with program break B, any increment n with 0 < n < 2^31 and
B + n < 2^32: if sbrk(+n) succeeds (it must allocate and map the new pages), it
returns B and sets the break to B + n; then sbrk(-n) returns B + n, restores the
break to B, and leaves the memory (hence every page mapping) untouched; then
sbrk(0) returns B and changes nothing. Each call returns the break recorded
before that call in a0 and advances the PC. -/
theorem sbrk_round_trip (n caller : Nat) (tm : ThreadManager) (cpu : Cpu)
    (memory : Mem) (nff : Nat) (tcb : ThreadControlBlock)
    (ra1 : Nat) (tm1 : ThreadManager) (cpu1 : Cpu) (mem1 : Mem) (nff1 : Nat)
    (hcur : tm.current_thread = some caller)
    (hlk : tm.threads.lookup caller = some tcb)
    (hn : 0 < n) (hn31 : n < 2147483648)
    (hov : tcb.program_break + n < 4294967296)
    (hreg : 10 < cpu.regs.length)
    (hcall1 : sbrk (n : Int) tm cpu memory nff
      = Except.ok (ra1, tm1, cpu1, mem1, nff1)) :
    ra1 = cpu.pc + 4 ∧
    a0 cpu1 = tcb.program_break ∧
    cpu1.pc = cpu.pc ∧
    tm1.threads.lookup caller
      = some { tcb with program_break := tcb.program_break + n } ∧
    ∃ tm2 cpu2,
      sbrk (-(n : Int)) tm1 cpu1 mem1 nff1
          = Except.ok (cpu1.pc + 4, tm2, cpu2, mem1, nff1) ∧
        a0 cpu2 = tcb.program_break + n ∧
        tm2.threads.lookup caller = some tcb ∧
        sbrk 0 tm2 cpu2 mem1 nff1
            = Except.ok (cpu2.pc + 4, tm2,
                Syscall.encode_result
                  (Except.ok (SyscallReturn.value (tcb.program_break : Int)))
                  cpu2,
                mem1, nff1) ∧
        a0 (Syscall.encode_result
          (Except.ok (SyscallReturn.value (tcb.program_break : Int))) cpu2)
            = tcb.program_break := by
  have hnb1 : u32_of_int ((tcb.program_break : Int) + (n : Int))
      = tcb.program_break + n := by
    simp only [u32_of_int]
    omega
  unfold sbrk at hcall1
  rw [hcur] at hcall1
  dsimp only at hcall1
  rw [hlk] at hcall1
  dsimp only at hcall1
  rw [if_neg (by omega), if_pos (by omega)] at hcall1
  split at hcall1
  · exact absurd hcall1 (by simp)
  · next memory' nff' hmapped =>
    rw [Except.ok.injEq, Prod.mk.injEq, Prod.mk.injEq, Prod.mk.injEq,
      Prod.mk.injEq] at hcall1
    obtain ⟨hra, htm1, hcpu1, hmem1, hnff1⟩ := hcall1
    subst hra hmem1 hnff1
    have hcur1 : tm1.current_thread = some caller := by
      rw [← htm1]
    have hlk1 : tm1.threads.lookup caller
        = some { tcb with program_break := tcb.program_break + n } := by
      rw [← htm1]
      dsimp only
      rw [lookup_assocUpdate_self, hlk, hnb1]
      rfl
    have hlen1 : 10 < cpu1.regs.length := by
      rw [← hcpu1, regs_length_encode]
      exact hreg
    refine ⟨rfl, ?_, ?_, hlk1, ?_⟩
    · rw [← hcpu1]
      exact a0_encode_value_coe cpu tcb.program_break hreg (by omega)
    · rw [← hcpu1]
      exact pc_encode_result _ cpu
    · -- second and third calls
      have hcall2 := sbrk_neg_eq (-(n : Int)) tm1 cpu1 memory' nff' caller
        { tcb with program_break := tcb.program_break + n } hcur1 hlk1 (by omega)
      have hnb2 : u32_of_int (((tcb.program_break + n : Nat) : Int) + -(n : Int))
          = tcb.program_break := by
        simp only [u32_of_int]
        omega
      dsimp only at hcall2
      simp only [hnb2] at hcall2
      refine ⟨_, _, hcall2, ?_, ?_, ?_, ?_⟩
      · exact a0_encode_value_coe _ (tcb.program_break + n) hlen1 (by omega)
      · dsimp only
        rw [lookup_assocUpdate_self, hlk1]
        rfl
      · refine sbrk_zero_eq _ _ _ _ caller tcb ?_ ?_
        · exact hcur1
        · dsimp only
          rw [lookup_assocUpdate_self, hlk1]
          rfl
      · refine a0_encode_value_coe _ tcb.program_break ?_ (by omega)
        rw [regs_length_encode]
        exact hlen1

/-- Concrete sbrk witness state: one running thread with program break
0x80400100 (not page aligned, so a 16-byte growth stays within the already
mapped page). -/
def c4_ctx : SavedContext :=
  SavedContext.mk 0 (List.replicate 32 0) 0x80401 PrivilegeMode.user

def c4_tcb : ThreadControlBlock :=
  ThreadControlBlock.mk 1 ThreadState.running c4_ctx 0 0 0x80400100 []

def c4_tm : ThreadManager := ThreadManager.mk [(1, c4_tcb)] [] (some 1) 2

def c4_cpu : Cpu := Cpu.mk 100 (List.replicate 32 0) 0 PrivilegeMode.user

def c4_mem : Mem := Mem.mk 0x80000000 0x500000 []

def c4_tcb1 : ThreadControlBlock :=
  ThreadControlBlock.mk 1 ThreadState.running c4_ctx 0 0 0x80400110 []

def c4_tm1 : ThreadManager := ThreadManager.mk [(1, c4_tcb1)] [] (some 1) 2

def c4_cpu1 : Cpu :=
  Syscall.encode_result
    (Except.ok (SyscallReturn.value ((0x80400100 : Nat) : Int))) c4_cpu

/-- C4 witness: the round trip sbrk(+16), sbrk(-16), sbrk(0) on the concrete
state returns 0x80400100, 0x80400110, 0x80400100 and restores the break. -/
theorem sbrk_round_trip_witness :
    (104 : Nat) = c4_cpu.pc + 4 ∧
    a0 c4_cpu1 = c4_tcb.program_break ∧
    c4_cpu1.pc = c4_cpu.pc ∧
    c4_tm1.threads.lookup 1
      = some { c4_tcb with program_break := c4_tcb.program_break + 16 } ∧
    ∃ tm2 cpu2,
      sbrk (-((16 : Nat) : Int)) c4_tm1 c4_cpu1 c4_mem 0x80402000
          = Except.ok (c4_cpu1.pc + 4, tm2, cpu2, c4_mem, 0x80402000) ∧
        a0 cpu2 = c4_tcb.program_break + 16 ∧
        tm2.threads.lookup 1 = some c4_tcb ∧
        sbrk 0 tm2 cpu2 c4_mem 0x80402000
            = Except.ok (cpu2.pc + 4, tm2,
                Syscall.encode_result
                  (Except.ok (SyscallReturn.value (c4_tcb.program_break : Int)))
                  cpu2,
                c4_mem, 0x80402000) ∧
        a0 (Syscall.encode_result
          (Except.ok (SyscallReturn.value (c4_tcb.program_break : Int))) cpu2)
            = c4_tcb.program_break :=
  sbrk_round_trip 16 1 c4_tm c4_cpu c4_mem 0x80402000 c4_tcb
    104 c4_tm1 c4_cpu1 c4_mem 0x80402000
    rfl rfl (by decide) (by decide) (by decide) (by decide) (by decide)

/-! C2: pipe read. -/

/-- C2: a read syscall on the read end of an existing pipe. With a non-empty
byte queue, up to len bytes are drained into the user buffer and their count is
returned in a0 with the PC advanced past the ECALL. With an empty queue and the
write end closed, 0 (EOF) is returned with the PC advanced. With an empty queue
and the write end open, the caller is appended to the pipe's wait queue, marked
Blocked, and its saved PC is left at the ECALL (cpu.pc) so the syscall
re-executes when it is woken; execution resumes in the next ready thread. -/
theorem file_read_pipe_spec (fd buf_ptr len caller pipe_id : Nat)
    (tm : ThreadManager) (pipes : List (Nat × Pipe)) (memory : Mem) (cpu : Cpu)
    (tcb : ThreadControlBlock) (pipe : Pipe)
    (hcur : tm.current_thread = some caller)
    (htcb : tm.threads.lookup caller = some tcb)
    (hfd : fd < tcb.file_descriptors.length)
    (hdesc : tcb.file_descriptors.getD fd none
      = some (FileDescriptor.pipe pipe_id false))
    (hp : pipes.lookup pipe_id = some pipe)
    (hreg : 10 < cpu.regs.length)
    (hlen32 : len < 4294967296) :
    (∀ b rest memory', pipe.buffer = b :: rest →
      copy_to_user memory tcb.context.satp (pipe.buffer.take len) buf_ptr
          = Except.ok memory' →
      file_read_pipe fd buf_ptr len tm pipes memory cpu
          = Except.ok (cpu.pc + 4, tm,
              assocUpdate pipes pipe_id
                (fun p => { p with buffer := p.buffer.drop len }),
              memory',
              Syscall.encode_result
                (Except.ok (SyscallReturn.value
                  ((pipe.buffer.take len).length : Int))) cpu) ∧
        (pipe.buffer.take len).length = min len pipe.buffer.length ∧
        a0 (Syscall.encode_result
          (Except.ok (SyscallReturn.value
            ((pipe.buffer.take len).length : Int))) cpu)
          = (pipe.buffer.take len).length) ∧
    (pipe.buffer = [] → pipe.write_open = false →
      file_read_pipe fd buf_ptr len tm pipes memory cpu
          = Except.ok (cpu.pc + 4, tm, pipes, memory,
              Syscall.encode_result
                (Except.ok (SyscallReturn.value 0)) cpu) ∧
        a0 (Syscall.encode_result (Except.ok (SyscallReturn.value 0)) cpu)
          = 0) ∧
    (∀ next rq ntcb, pipe.buffer = [] → pipe.write_open = true →
      tm.ready_queue = next :: rq → next ≠ caller →
      tm.threads.lookup next = some ntcb →
      ∃ tm', file_read_pipe fd buf_ptr len tm pipes memory cpu
          = Except.ok ((ntcb.context.restore_to cpu).pc, tm',
              assocUpdate pipes pipe_id
                (fun p => { p with wait_queue := p.wait_queue ++ [caller] }),
              memory, ntcb.context.restore_to cpu) ∧
        (ntcb.context.restore_to cpu).pc = ntcb.context.pc ∧
        tm'.threads.lookup caller
          = some { tcb with state := ThreadState.blocked, context := SavedContext.mk cpu.pc cpu.regs cpu.satp cpu.mode }) := by
  have hblock : tm.block_current_thread
      = { tm with threads := assocUpdate tm.threads caller (fun t => { t with state := ThreadState.blocked }) } := by
    unfold ThreadManager.block_current_thread
    rw [hcur]
  refine ⟨?_, ?_, ?_⟩
  · intro b rest memory' hbuf hcopy
    have hne : pipe.buffer.isEmpty = false := by
      rw [hbuf]
      rfl
    have hcount : (pipe.buffer.take len).length = min len pipe.buffer.length := by
      simp
    have hlt : (pipe.buffer.take len).length < 4294967296 := by
      rw [hcount]
      omega
    refine ⟨?_, hcount, a0_encode_value_coe cpu _ hreg hlt⟩
    unfold file_read_pipe
    rw [hcur]
    dsimp only
    rw [htcb]
    dsimp only
    rw [if_pos hfd, hdesc]
    dsimp only
    rw [if_neg (by simp), hp]
    dsimp only
    rw [if_neg (by simp [hne]), hcopy]
    dsimp only
    rw [pc_encode_result]
  · intro hbuf hwo
    have hemp : pipe.buffer.isEmpty = true := by
      rw [hbuf]
      rfl
    refine ⟨?_, a0_write_reg_10 cpu 0 hreg⟩
    unfold file_read_pipe
    rw [hcur]
    dsimp only
    rw [htcb]
    dsimp only
    rw [if_pos hfd, hdesc]
    dsimp only
    rw [if_neg (by simp), hp]
    dsimp only
    rw [if_pos hemp, if_pos hwo]
    rw [pc_encode_result]
  · intro next rq ntcb hbuf hwo hready hne hnext
    have hemp : pipe.buffer.isEmpty = true := by
      rw [hbuf]
      rfl
    refine ⟨{ tm with ready_queue := rq, current_thread := some next, threads := assocUpdate (assocUpdate (assocUpdate tm.threads caller (fun t => { t with state := ThreadState.blocked })) caller (fun t => { t with context := t.context.save_from cpu })) next (fun t => { t with state := ThreadState.running }) }, ?_, rfl, ?_⟩
    · unfold file_read_pipe
      rw [hcur]
      dsimp only
      rw [htcb]
      dsimp only
      rw [if_pos hfd, hdesc]
      dsimp only
      rw [if_neg (by simp), hp]
      dsimp only
      rw [if_pos hemp, if_neg (by simp [hwo])]
      rw [hblock]
      unfold ThreadManager.yield_thread
      dsimp only
      rw [hcur]
      dsimp only
      rw [lookup_assocUpdate_self, htcb, Option.map_some']
      dsimp only
      rw [hready]
      rw [if_neg (show ¬(ThreadState.blocked = ThreadState.running) by simp)]
      dsimp only
      rw [lookup_assocUpdate_ne _ caller next _ hne,
        lookup_assocUpdate_ne _ caller next _ hne, hnext]
      dsimp only
      rw [if_neg (by simp)]
    · rw [lookup_assocUpdate_ne _ next caller _ (Ne.symm hne),
        lookup_assocUpdate_self, lookup_assocUpdate_self, htcb]
      rfl

/-- Concrete pipe-read witness state: one thread whose fd 3 is the read end of
pipe 5 holding bytes 7, 8, 9; satp is bare so the user buffer at 0x80000000 is
written directly. -/
def c2_tcb : ThreadControlBlock :=
  ThreadControlBlock.mk 1 ThreadState.running
    (SavedContext.mk 100 (List.replicate 32 0) 0 PrivilegeMode.user) 0 0 0
    [none, none, none, some (FileDescriptor.pipe 5 false)]

def c2_tm : ThreadManager := ThreadManager.mk [(1, c2_tcb)] [] (some 1) 2

def c2_pipe : Pipe := Pipe.mk [7, 8, 9] true true []

def c2_pipes : List (Nat × Pipe) := [(5, c2_pipe)]

def c2_cpu : Cpu := Cpu.mk 100 (List.replicate 32 0) 0 PrivilegeMode.user

def c2_mem : Mem := Mem.mk 0x80000000 4096 []

def c2_mem' : Mem := Mem.mk 0x80000000 4096 [(0x80000001, 8), (0x80000000, 7)]

/-- C2 witness: reading 2 bytes from the 3-byte pipe drains 7, 8 into the user
buffer, returns 2 in a0 and advances the PC. -/
theorem file_read_pipe_spec_witness :
    (file_read_pipe 3 0x80000000 2 c2_tm c2_pipes c2_mem c2_cpu
        = Except.ok (104, c2_tm,
            assocUpdate c2_pipes 5
              (fun p => { p with buffer := p.buffer.drop 2 }),
            c2_mem',
            Syscall.encode_result
              (Except.ok (SyscallReturn.value 2)) c2_cpu) ∧
      (2 : Nat) = min 2 3 ∧
      a0 (Syscall.encode_result
        (Except.ok (SyscallReturn.value 2)) c2_cpu) = 2) :=
  (file_read_pipe_spec 3 0x80000000 2 1 5 c2_tm c2_pipes c2_mem c2_cpu
    c2_tcb c2_pipe rfl rfl (by decide) rfl rfl (by decide) (by decide)).1
    7 [8, 9] c2_mem' rfl (by decide)

/-! C7: read_data byte counts, sparse blocks, and the double-indirect error. -/

theorem read_data_loop_length (read_sector : Nat → Option (List Nat))
    (inode : Inode)
    (hwf : ∀ s b, read_sector s = some b → b.length = 512) :
    ∀ n co eo acc out, eo - co ≤ n →
    read_data_loop read_sector inode co eo acc = Except.ok out →
    out.length = acc.length + (eo - co) := by
  intro n
  induction n with
  | zero =>
    intro co eo acc out hle hrun
    unfold read_data_loop at hrun
    rw [dif_neg (by omega)] at hrun
    obtain rfl : acc = out := by injection hrun
    omega
  | succ n ih =>
    intro co eo acc out hle hrun
    by_cases h : co < eo
    · unfold read_data_loop at hrun
      rw [dif_pos h] at hrun
      dsimp only at hrun
      have hmod : co % BLOCK_SIZE < BLOCK_SIZE := Nat.mod_lt _ (by decide)
      split at hrun
      · exact absurd hrun (by simp)
      · next block_id hres =>
        by_cases hz : block_id = 0
        · rw [if_pos hz] at hrun
          have hrec := ih (co + min (BLOCK_SIZE - co % BLOCK_SIZE) (eo - co)) eo
            (acc ++ List.replicate (min (BLOCK_SIZE - co % BLOCK_SIZE) (eo - co)) 0)
            out (by simp only [BLOCK_SIZE] at *; omega) hrun
          rw [hrec]
          simp only [List.length_append, List.length_replicate]
          simp only [BLOCK_SIZE] at *
          omega
        · rw [if_neg hz] at hrun
          split at hrun
          · exact absurd hrun (by simp)
          · next blk hblk =>
            have hlen := hwf _ _ hblk
            have hrec := ih (co + min (BLOCK_SIZE - co % BLOCK_SIZE) (eo - co)) eo
              (acc ++ ((blk.drop (co % BLOCK_SIZE)).take
                (min (BLOCK_SIZE - co % BLOCK_SIZE) (eo - co))))
              out (by simp only [BLOCK_SIZE] at *; omega) hrun
            rw [hrec]
            simp only [List.length_append, List.length_take, List.length_drop, hlen]
            simp only [BLOCK_SIZE] at *
            omega
    · unfold read_data_loop at hrun
      rw [dif_neg h] at hrun
      obtain rfl : acc = out := by injection hrun
      omega

theorem read_data_loop_sparse (inode : Inode)
    (hdir : ∀ i, inode.direct_ptrs.getD i 0 = 0)
    (hind : inode.indirect_ptr = 0) :
    ∀ n co eo acc, eo - co ≤ n → eo ≤ 140 * 512 →
    read_data_loop (fun _ => none) inode co eo acc
      = Except.ok (acc ++ List.replicate (eo - co) 0) := by
  intro n
  induction n with
  | zero =>
    intro co eo acc hle hbound
    unfold read_data_loop
    rw [dif_neg (by omega)]
    rw [show eo - co = 0 by omega]
    simp
  | succ n ih =>
    intro co eo acc hle hbound
    by_cases h : co < eo
    · have hmod : co % BLOCK_SIZE < BLOCK_SIZE := Nat.mod_lt _ (by decide)
      have hbi : co / BLOCK_SIZE < 140 := by
        simp only [BLOCK_SIZE]
        omega
      have hres : resolve_block (fun _ => none) inode (co / BLOCK_SIZE)
          = Except.ok 0 := by
        unfold resolve_block
        by_cases hlt : co / BLOCK_SIZE < INODE_DIRECT_POINTERS
        · rw [if_pos hlt, hdir]
        · rw [if_neg hlt,
            if_pos (show co / BLOCK_SIZE - INODE_DIRECT_POINTERS < BLOCK_SIZE / 4 by
              simp only [BLOCK_SIZE, INODE_DIRECT_POINTERS] at *
              omega),
            if_pos hind]
      unfold read_data_loop
      rw [dif_pos h]
      dsimp only
      rw [hres]
      dsimp only
      rw [if_pos rfl]
      rw [ih (co + min (BLOCK_SIZE - co % BLOCK_SIZE) (eo - co)) eo _
        (by simp only [BLOCK_SIZE] at *; omega) hbound]
      rw [List.append_assoc, ← List.replicate_add]
      have : min (BLOCK_SIZE - co % BLOCK_SIZE) (eo - co)
          + (eo - (co + min (BLOCK_SIZE - co % BLOCK_SIZE) (eo - co))) = eo - co := by
        simp only [BLOCK_SIZE] at *
        omega
      rw [this]
    · unfold read_data_loop
      rw [dif_neg h]
      rw [show eo - co = 0 by omega]
      simp

/-- C7 (amended): for every inode of size s, offset and buffer length len with
offset + len below 2^32 (so the wrapping u32 end-offset computation of
fs/mod.rs line 133 does not wrap), read_data returns exactly
min(len, s - offset) bytes whenever it succeeds, and returns 0 bytes at or
past EOF; a resolved block pointer of 0 contributes zeros without a sector
read (an all-sparse file reads correctly even when every sector read fails);
and a spanned logical block index of 12+128 or more yields an error. -/
theorem read_data_spec (inode : Inode) :
    (∀ read_sector offset buf_len, inode.size ≤ offset →
      read_data read_sector inode offset buf_len = Except.ok []) ∧
    (∀ read_sector offset buf_len out, offset + buf_len < 4294967296 →
      (∀ s b, read_sector s = some b → b.length = 512) →
      read_data read_sector inode offset buf_len = Except.ok out →
      out.length = min buf_len (inode.size - offset)) ∧
    (∀ offset buf_len, offset + buf_len < 4294967296 →
      (∀ i, inode.direct_ptrs.getD i 0 = 0) →
      inode.indirect_ptr = 0 → inode.size ≤ 140 * 512 →
      read_data (fun _ => none) inode offset buf_len
        = Except.ok (List.replicate (min buf_len (inode.size - offset)) 0)) ∧
    (∀ read_sector offset buf_len, offset + buf_len < 4294967296 →
      offset < inode.size → 0 < buf_len →
      140 * 512 ≤ offset →
      read_data read_sector inode offset buf_len
        = Except.error "Double indirect pointers not supported yet") := by
  refine ⟨?_, ?_, ?_, ?_⟩
  · intro read_sector offset buf_len hge
    unfold read_data
    rw [if_pos hge]
  · intro read_sector offset buf_len out hwrap hwf hrun
    by_cases hge : inode.size ≤ offset
    · unfold read_data at hrun
      rw [if_pos hge] at hrun
      obtain rfl : ([] : List Nat) = out := by injection hrun
      simp
      omega
    · unfold read_data at hrun
      rw [if_neg hge,
        show ((offset + buf_len % 4294967296) % 4294967296 : Nat) = offset + buf_len
          by omega] at hrun
      have := read_data_loop_length read_sector inode hwf
        (min (offset + buf_len) inode.size - offset) offset
        (min (offset + buf_len) inode.size) [] out (by omega) hrun
      rw [this]
      simp only [List.length_nil]
      omega
  · intro offset buf_len hwrap hdir hind hsz
    by_cases hge : inode.size ≤ offset
    · unfold read_data
      rw [if_pos hge]
      rw [show min buf_len (inode.size - offset) = 0 by omega]
      rfl
    · unfold read_data
      rw [if_neg hge,
        show ((offset + buf_len % 4294967296) % 4294967296 : Nat) = offset + buf_len
          by omega]
      rw [read_data_loop_sparse inode hdir hind
        (min (offset + buf_len) inode.size - offset) offset
        (min (offset + buf_len) inode.size) [] (by omega) (by omega)]
      rw [List.nil_append]
      rw [show min (offset + buf_len) inode.size - offset
        = min buf_len (inode.size - offset) by omega]
  · intro read_sector offset buf_len hwrap hlt hpos hbig
    unfold read_data
    rw [if_neg (by omega),
      show ((offset + buf_len % 4294967296) % 4294967296 : Nat) = offset + buf_len
        by omega]
    unfold read_data_loop
    rw [dif_pos (by omega)]
    dsimp only
    have hres : resolve_block read_sector inode (offset / BLOCK_SIZE)
        = Except.error "Double indirect pointers not supported yet" := by
      unfold resolve_block
      rw [if_neg (show ¬ offset / BLOCK_SIZE < INODE_DIRECT_POINTERS by
          simp only [BLOCK_SIZE, INODE_DIRECT_POINTERS]
          omega),
        if_neg (show ¬ offset / BLOCK_SIZE - INODE_DIRECT_POINTERS < BLOCK_SIZE / 4 by
          simp only [BLOCK_SIZE, INODE_DIRECT_POINTERS]
          omega)]
    rw [hres]

/-- C7 witness: a sparse 1000-byte file (all pointers zero) read at offset 100
with a 2000-byte buffer yields 900 zero bytes even though every sector read
fails. -/
theorem read_data_spec_witness :
    read_data (fun _ => none)
        (Inode.mk 1 FileType.file 1000 (List.replicate 12 0) 0) 100 2000
      = Except.ok (List.replicate (min 2000 (1000 - 100)) 0) :=
  (read_data_spec (Inode.mk 1 FileType.file 1000 (List.replicate 12 0) 0)).2.2.1
    100 2000 (by decide)
    (by
      intro i
      rw [List.getD_eq_getElem?_getD, List.getElem?_replicate]
      split <;> rfl)
    rfl (by decide)

/-- C7 counterexample: at offset 0xFFFFFE00 with a 1024-byte buffer on a sparse
file of size 0xFFFFFFFF, the wrapping u32 sum offset + len of fs/mod.rs line
133 wraps to 0x200, the end offset falls below the current offset, the loop
never runs and read_data returns 0 bytes, although offset < size and
min(len, size - offset) = 511. This refutes the unrestricted claim that
read_data returns exactly min(len, s - offset) bytes whenever offset < s. -/
theorem read_data_wrap_counterexample :
    read_data (fun _ => none)
        (Inode.mk 1 FileType.file 4294967295 (List.replicate 12 0) 0) 4294966784 1024
      = Except.ok [] ∧
    (0 : Nat) ≠ min 1024 (4294967295 - 4294966784) := by
  constructor
  · unfold read_data
    rw [if_neg (by decide)]
    unfold read_data_loop
    rw [dif_neg (by decide)]
  · decide

/-! Read-after-write characterization of the sparse SimpleMemory, used to settle
C6 without evaluating the 12288-entry write trace of create_user_address_space. -/

theorem lookup_head_eq (a v : Nat) (l : List (Nat × Nat)) :
    List.lookup a ((a, v) :: l) = some v := by
  simp [List.lookup]

theorem lookup_head_ne (a x v : Nat) (l : List (Nat × Nat)) (h : ¬ a = x) :
    List.lookup a ((x, v) :: l) = List.lookup a l := by
  have e : (a == x) = false := beq_eq_false_iff_ne.mpr h
  simp [List.lookup, e]

theorem byteAt_write4_hit0 (B S a v : Nat) (l : List (Nat × Nat)) :
    (Mem.mk B S (write4 a v l)).byteAt a = v &&& 0xFF := by
  unfold Mem.byteAt write4
  dsimp only
  rw [lookup_head_ne _ _ _ _ (by omega), lookup_head_ne _ _ _ _ (by omega),
    lookup_head_ne _ _ _ _ (by omega), lookup_head_eq]
  rfl

theorem byteAt_write4_hit1 (B S a v : Nat) (l : List (Nat × Nat)) :
    (Mem.mk B S (write4 a v l)).byteAt (a + 1) = (v >>> 8) &&& 0xFF := by
  unfold Mem.byteAt write4
  dsimp only
  rw [lookup_head_ne _ _ _ _ (by omega), lookup_head_ne _ _ _ _ (by omega),
    lookup_head_eq]
  rfl

theorem byteAt_write4_hit2 (B S a v : Nat) (l : List (Nat × Nat)) :
    (Mem.mk B S (write4 a v l)).byteAt (a + 2) = (v >>> 16) &&& 0xFF := by
  unfold Mem.byteAt write4
  dsimp only
  rw [lookup_head_ne _ _ _ _ (by omega), lookup_head_eq]
  rfl

theorem byteAt_write4_hit3 (B S a v : Nat) (l : List (Nat × Nat)) :
    (Mem.mk B S (write4 a v l)).byteAt (a + 3) = (v >>> 24) &&& 0xFF := by
  unfold Mem.byteAt write4
  dsimp only
  rw [lookup_head_eq]
  rfl

theorem byteAt_write4_out (B S a v b : Nat) (l : List (Nat × Nat))
    (h : b < a ∨ a + 4 ≤ b) :
    (Mem.mk B S (write4 a v l)).byteAt b = (Mem.mk B S l).byteAt b := by
  unfold Mem.byteAt write4
  dsimp only
  rw [lookup_head_ne _ _ _ _ (by omega), lookup_head_ne _ _ _ _ (by omega),
    lookup_head_ne _ _ _ _ (by omega), lookup_head_ne _ _ _ _ (by omega)]

theorem write_word_mk (B S a v : Nat) (l : List (Nat × Nat))
    (h : B ≤ a ∧ a + 4 ≤ B + S) :
    (Mem.mk B S l).write_word a v = Except.ok (Mem.mk B S (write4 a v l)) := by
  unfold Mem.write_word Mem.write_byte write4
  dsimp only
  rw [if_pos (show B ≤ a ∧ a < B + S by omega)]
  dsimp only
  rw [if_pos (show B ≤ a + 1 ∧ a + 1 < B + S by omega)]
  dsimp only
  rw [if_pos (show B ≤ a + 2 ∧ a + 2 < B + S by omega)]
  dsimp only
  rw [if_pos (show B ≤ a + 3 ∧ a + 3 < B + S by omega)]

theorem read_word_mk (B S a : Nat) (l : List (Nat × Nat))
    (h : B ≤ a ∧ a + 4 ≤ B + S) :
    (Mem.mk B S l).read_word a
      = Except.ok ((Mem.mk B S l).byteAt a ||| ((Mem.mk B S l).byteAt (a + 1) <<< 8) |||
          ((Mem.mk B S l).byteAt (a + 2) <<< 16) ||| ((Mem.mk B S l).byteAt (a + 3) <<< 24)) := by
  unfold Mem.read_word Mem.read_byte Mem.byteAt
  dsimp only
  rw [if_pos (show B ≤ a ∧ a < B + S by omega)]
  dsimp only
  rw [if_pos (show B ≤ a + 1 ∧ a + 1 < B + S by omega)]
  dsimp only
  rw [if_pos (show B ≤ a + 2 ∧ a + 2 < B + S by omega)]
  dsimp only
  rw [if_pos (show B ≤ a + 3 ∧ a + 3 < B + S by omega)]

theorem zero_words_succ (m : Mem) (pa i f : Nat) :
    zero_words m pa i (f + 1)
      = match m.write_word (pa + i * 4) 0 with
        | Except.error _ => Except.error "Failed to zero PTE"
        | Except.ok m' => zero_words m' pa (i + 1) f := rfl

theorem zero_words_spec : ∀ (fuel B S pa i : Nat) (w : List (Nat × Nat)),
    B ≤ pa + i * 4 → pa + i * 4 + fuel * 4 ≤ B + S →
    ∃ w', zero_words (Mem.mk B S w) pa i fuel = Except.ok (Mem.mk B S w') ∧
      (∀ a, pa + i * 4 ≤ a → a < pa + i * 4 + fuel * 4 → (Mem.mk B S w').byteAt a = 0) ∧
      (∀ a, a < pa + i * 4 ∨ pa + i * 4 + fuel * 4 ≤ a →
        (Mem.mk B S w').byteAt a = (Mem.mk B S w).byteAt a) := by
  intro fuel
  induction fuel with
  | zero =>
    intro B S pa i w h1 h2
    exact ⟨w, rfl, fun a ha hb => absurd hb (by omega), fun a _ => rfl⟩
  | succ f ih =>
    intro B S pa i w h1 h2
    rw [zero_words_succ, write_word_mk B S (pa + i * 4) 0 w ⟨by omega, by omega⟩]
    dsimp only
    obtain ⟨w', hz, hin, hout⟩ := ih B S pa (i + 1) (write4 (pa + i * 4) 0 w)
      (by omega) (by omega)
    refine ⟨w', hz, ?_, ?_⟩
    · intro a ha hb
      by_cases hc : pa + (i + 1) * 4 ≤ a
      · exact hin a (by omega) (by omega)
      · rw [hout a (by omega)]
        rcases (show a = pa + i * 4 ∨ a = pa + i * 4 + 1 ∨ a = pa + i * 4 + 2 ∨
            a = pa + i * 4 + 3 by omega) with h | h | h | h
        · rw [h, byteAt_write4_hit0]; decide
        · rw [h, byteAt_write4_hit1]; decide
        · rw [h, byteAt_write4_hit2]; decide
        · rw [h, byteAt_write4_hit3]; decide
    · intro a ha
      rw [hout a (by omega), byteAt_write4_out _ _ _ _ _ _ (by omega)]

theorem map_page_alloc (B S nff root_ppn vaddr paddr flags l1a l0a l1v l0v : Nat)
    (w : List (Nat × Nat))
    (hl1a : ((root_ppn <<< 12) &&& 0xFFFFFFFF) + ((vaddr >>> 22) &&& 0x3FF) * 4 = l1a)
    (hl1v : (((nff >>> 12) <<< 10) &&& 0xFFFFFFFF) ||| PTE_V = l1v)
    (hl0a : ((((l1v >>> 10) &&& 0x3FFFFF) <<< 12) &&& 0xFFFFFFFF) +
        ((vaddr >>> 12) &&& 0x3FF) * 4 = l0a)
    (hl0v : (((paddr >>> 12) <<< 10) &&& 0xFFFFFFFF) ||| flags ||| PTE_V ||| PTE_A ||| PTE_D
        = l0v)
    (hfr : B ≤ nff ∧ nff + 4096 ≤ B + S)
    (hl1in : B ≤ l1a ∧ l1a + 4 ≤ B + S)
    (hl0in : nff ≤ l0a ∧ l0a + 4 ≤ nff + 4096)
    (hdisj : l1a + 4 ≤ nff ∨ nff + 4096 ≤ l1a)
    (hz0 : (Mem.mk B S w).byteAt l1a = 0) (hz1 : (Mem.mk B S w).byteAt (l1a + 1) = 0)
    (hz2 : (Mem.mk B S w).byteAt (l1a + 2) = 0) (hz3 : (Mem.mk B S w).byteAt (l1a + 3) = 0) :
    ∃ w', map_page (Mem.mk B S w) nff root_ppn vaddr paddr flags
        = Except.ok (Mem.mk B S w', nff + 4096) ∧
      ((Mem.mk B S w').byteAt l1a = l1v &&& 0xFF ∧
        (Mem.mk B S w').byteAt (l1a + 1) = (l1v >>> 8) &&& 0xFF ∧
        (Mem.mk B S w').byteAt (l1a + 2) = (l1v >>> 16) &&& 0xFF ∧
        (Mem.mk B S w').byteAt (l1a + 3) = (l1v >>> 24) &&& 0xFF) ∧
      ((Mem.mk B S w').byteAt l0a = l0v &&& 0xFF ∧
        (Mem.mk B S w').byteAt (l0a + 1) = (l0v >>> 8) &&& 0xFF ∧
        (Mem.mk B S w').byteAt (l0a + 2) = (l0v >>> 16) &&& 0xFF ∧
        (Mem.mk B S w').byteAt (l0a + 3) = (l0v >>> 24) &&& 0xFF) ∧
      (∀ a, nff ≤ a → a < nff + 4096 → a < l0a ∨ l0a + 4 ≤ a →
        (Mem.mk B S w').byteAt a = 0) ∧
      (∀ a, (a < nff ∨ nff + 4096 ≤ a) → (a < l1a ∨ l1a + 4 ≤ a) →
        (Mem.mk B S w').byteAt a = (Mem.mk B S w).byteAt a) := by
  unfold map_page alloc_frame
  dsimp only
  rw [hl1a, read_word_mk B S l1a w hl1in, hz0, hz1, hz2, hz3,
    show ((0 : Nat) ||| (0 <<< 8) ||| (0 <<< 16) ||| (0 <<< 24)) = 0 by decide]
  dsimp only
  rw [if_pos (show (0 : Nat) &&& PTE_V = 0 by decide)]
  obtain ⟨wz, hzw, hzi, hzo⟩ := zero_words_spec 1024 B S nff 0 w (by omega) (by omega)
  rw [hzw]
  dsimp only
  rw [hl1v, write_word_mk B S l1a l1v wz hl1in]
  dsimp only
  rw [hl0a, hl0v, write_word_mk B S l0a l0v (write4 l1a l1v wz) ⟨by omega, by omega⟩]
  dsimp only
  refine ⟨write4 l0a l0v (write4 l1a l1v wz), rfl,
    ⟨?_, ?_, ?_, ?_⟩, ⟨?_, ?_, ?_, ?_⟩, ?_, ?_⟩
  · rw [byteAt_write4_out _ _ _ _ _ _ (by omega), byteAt_write4_hit0]
  · rw [byteAt_write4_out _ _ _ _ _ _ (by omega), byteAt_write4_hit1]
  · rw [byteAt_write4_out _ _ _ _ _ _ (by omega), byteAt_write4_hit2]
  · rw [byteAt_write4_out _ _ _ _ _ _ (by omega), byteAt_write4_hit3]
  · rw [byteAt_write4_hit0]
  · rw [byteAt_write4_hit1]
  · rw [byteAt_write4_hit2]
  · rw [byteAt_write4_hit3]
  · intro a ha1 ha2 ha3
    rw [byteAt_write4_out _ _ _ _ _ _ (by omega), byteAt_write4_out _ _ _ _ _ _ (by omega)]
    exact hzi a (by omega) (by omega)
  · intro a ha1 ha2
    rw [byteAt_write4_out _ _ _ _ _ _ (by omega), byteAt_write4_out _ _ _ _ _ _ (by omega)]
    exact hzo a (by omega)
/-- The successful two-level walk of translate, characterized by the two PTE
words the walk reads: with paging on, a valid non-leaf L1 entry, and a valid
leaf L0 entry passing check_permissions, translate returns the leaf physical
address. -/
theorem translate_walk_ok (addr satp l1a l0a pte1 pte0 pa : Nat) (acc : AccessType)
    (mode : PrivilegeMode) (m : Mem)
    (hmode : ¬(satp &&& 0x80000000 = 0 ∨ mode = PrivilegeMode.machine))
    (hl1a : (((satp &&& 0x3FFFFF) <<< 12) &&& 0xFFFFFFFF) + ((addr >>> 22) &&& 0x3FF) * 4
      = l1a)
    (hw1 : m.read_word l1a = Except.ok pte1)
    (hv1 : ¬(pte1 &&& PTE_V = 0))
    (hp1 : ¬(pte1 &&& (PTE_R ||| PTE_W ||| PTE_X) ≠ 0))
    (hl0a : ((((pte1 >>> 10) &&& 0x3FFFFF) <<< 12) &&& 0xFFFFFFFF) +
      ((addr >>> 12) &&& 0x3FF) * 4 = l0a)
    (hw0 : m.read_word l0a = Except.ok pte0)
    (hv0 : ¬(pte0 &&& PTE_V = 0))
    (hp0 : ¬(pte0 &&& (PTE_R ||| PTE_W ||| PTE_X) = 0))
    (hperm : check_permissions pte0 acc mode addr = Except.ok ())
    (hpa : ((((pte0 >>> 10) &&& 0x3FFFFF) <<< 12) &&& 0xFFFFFFFF) ||| (addr &&& 0xFFF) = pa) :
    translate addr acc satp mode m = Except.ok pa := by
  unfold translate
  rw [if_neg hmode]
  dsimp only
  rw [hl1a, hw1]
  dsimp only
  rw [if_neg hv1, if_neg hp1]
  rw [hl0a, hw0]
  dsimp only
  rw [if_neg hv0, if_neg hp0, hperm]
  dsimp only
  rw [hpa]

/-- The faulting walk of translate when the L1 entry it reads is the zero word
(V bit clear): the result is the page fault matching the access type. -/
theorem translate_l1_invalid (addr satp l1a : Nat) (acc : AccessType)
    (mode : PrivilegeMode) (m : Mem)
    (hmode : ¬(satp &&& 0x80000000 = 0 ∨ mode = PrivilegeMode.machine))
    (hl1a : (((satp &&& 0x3FFFFF) <<< 12) &&& 0xFFFFFFFF) + ((addr >>> 22) &&& 0x3FF) * 4
      = l1a)
    (hw1 : m.read_word l1a = Except.ok 0) :
    translate addr acc satp mode m = Except.error (page_fault_for acc addr) := by
  unfold translate
  rw [if_neg hmode]
  dsimp only
  rw [hl1a, hw1]
  dsimp only
  rw [if_pos (show (0 : Nat) &&& PTE_V = 0 by decide)]

/-- Shared C6 groundwork: from any prior contents of a RAM that covers the
boot allocator frames, create_user_address_space at NEXT_FREE_FRAME =
0x8040_0000 succeeds with satp = SV32 | root_ppn and a three-frame allocation,
the UART and block-device bases translate back to themselves under the
returned satp in supervisor mode, and the network base (0x3000_0000) raises a
load page fault because no map_page call covers it. -/
theorem create_user_space_facts (B S : Nat) (w0 : List (Nat × Nat))
    (hB : B ≤ 0x80400000) (hS : 0x80403000 ≤ B + S) :
    ∃ w', create_user_address_space (Mem.mk B S w0) 0x80400000
        = Except.ok (0x80080400, Mem.mk B S w', 0x80403000) ∧
      translate 0x10000000 AccessType.read 0x80080400 PrivilegeMode.supervisor
          (Mem.mk B S w') = Except.ok 0x10000000 ∧
      translate 0x20000000 AccessType.read 0x80080400 PrivilegeMode.supervisor
          (Mem.mk B S w') = Except.ok 0x20000000 ∧
      translate 0x30000000 AccessType.read 0x80080400 PrivilegeMode.supervisor
          (Mem.mk B S w')
        = Except.error (TrapCause.loadPageFault 0x30000000) := by
  obtain ⟨wz, hzw, hzi, hzo⟩ :=
    zero_words_spec 1024 B S 0x80400000 0 w0 (by omega) (by omega)
  obtain ⟨wu, hu, hu1p, hu0p, huz, hup⟩ :=
    map_page_alloc B S 0x80401000 0x80400 0x10000000 0x10000000
      (PTE_R ||| PTE_W) 0x80400100 0x80401000 0x20100401 0x40000C7 wz
      (by decide) (by decide) (by decide) (by decide)
      (by omega) (by omega) (by omega) (by omega)
      (hzi 0x80400100 (by omega) (by omega)) (hzi (0x80400100 + 1) (by omega) (by omega))
      (hzi (0x80400100 + 2) (by omega) (by omega)) (hzi (0x80400100 + 3) (by omega) (by omega))
  rw [show (0x80401000 : Nat) + 4096 = 0x80402000 by omega] at hu
  have hq0 : (Mem.mk B S wu).byteAt 0x80400200 = 0 := by
    rw [hup 0x80400200 (by omega) (by omega)]
    exact hzi 0x80400200 (by omega) (by omega)
  have hq1 : (Mem.mk B S wu).byteAt (0x80400200 + 1) = 0 := by
    rw [hup (0x80400200 + 1) (by omega) (by omega)]
    exact hzi (0x80400200 + 1) (by omega) (by omega)
  have hq2 : (Mem.mk B S wu).byteAt (0x80400200 + 2) = 0 := by
    rw [hup (0x80400200 + 2) (by omega) (by omega)]
    exact hzi (0x80400200 + 2) (by omega) (by omega)
  have hq3 : (Mem.mk B S wu).byteAt (0x80400200 + 3) = 0 := by
    rw [hup (0x80400200 + 3) (by omega) (by omega)]
    exact hzi (0x80400200 + 3) (by omega) (by omega)
  obtain ⟨wb, hb, hb1p, hb0p, hbz, hbp⟩ :=
    map_page_alloc B S 0x80402000 0x80400 0x20000000 0x20000000
      (PTE_R ||| PTE_W) 0x80400200 0x80402000 0x20100801 0x80000C7 wu
      (by decide) (by decide) (by decide) (by decide)
      (by omega) (by omega) (by omega) (by omega)
      hq0 hq1 hq2 hq3
  rw [show (0x80402000 : Nat) + 4096 = 0x80403000 by omega] at hb
  have e0 : (Mem.mk B S wb).byteAt 0x80400100 = 1 := by
    rw [hbp 0x80400100 (by omega) (by omega), hu1p.1]; decide
  have e1 : (Mem.mk B S wb).byteAt (0x80400100 + 1) = 4 := by
    rw [hbp (0x80400100 + 1) (by omega) (by omega), hu1p.2.1]; decide
  have e2 : (Mem.mk B S wb).byteAt (0x80400100 + 2) = 16 := by
    rw [hbp (0x80400100 + 2) (by omega) (by omega), hu1p.2.2.1]; decide
  have e3 : (Mem.mk B S wb).byteAt (0x80400100 + 3) = 32 := by
    rw [hbp (0x80400100 + 3) (by omega) (by omega), hu1p.2.2.2]; decide
  have f0 : (Mem.mk B S wb).byteAt 0x80401000 = 0xC7 := by
    rw [hbp 0x80401000 (by omega) (by omega), hu0p.1]; decide
  have f1 : (Mem.mk B S wb).byteAt (0x80401000 + 1) = 0 := by
    rw [hbp (0x80401000 + 1) (by omega) (by omega), hu0p.2.1]; decide
  have f2 : (Mem.mk B S wb).byteAt (0x80401000 + 2) = 0 := by
    rw [hbp (0x80401000 + 2) (by omega) (by omega), hu0p.2.2.1]; decide
  have f3 : (Mem.mk B S wb).byteAt (0x80401000 + 3) = 4 := by
    rw [hbp (0x80401000 + 3) (by omega) (by omega), hu0p.2.2.2]; decide
  have g0 : (Mem.mk B S wb).byteAt 0x80400200 = 1 := by
    rw [hb1p.1]; decide
  have g1 : (Mem.mk B S wb).byteAt (0x80400200 + 1) = 8 := by
    rw [hb1p.2.1]; decide
  have g2 : (Mem.mk B S wb).byteAt (0x80400200 + 2) = 16 := by
    rw [hb1p.2.2.1]; decide
  have g3 : (Mem.mk B S wb).byteAt (0x80400200 + 3) = 32 := by
    rw [hb1p.2.2.2]; decide
  have k0 : (Mem.mk B S wb).byteAt 0x80402000 = 0xC7 := by
    rw [hb0p.1]; decide
  have k1 : (Mem.mk B S wb).byteAt (0x80402000 + 1) = 0 := by
    rw [hb0p.2.1]; decide
  have k2 : (Mem.mk B S wb).byteAt (0x80402000 + 2) = 0 := by
    rw [hb0p.2.2.1]; decide
  have k3 : (Mem.mk B S wb).byteAt (0x80402000 + 3) = 8 := by
    rw [hb0p.2.2.2]; decide
  have n0 : (Mem.mk B S wb).byteAt 0x80400300 = 0 := by
    rw [hbp 0x80400300 (by omega) (by omega), hup 0x80400300 (by omega) (by omega)]
    exact hzi 0x80400300 (by omega) (by omega)
  have n1 : (Mem.mk B S wb).byteAt (0x80400300 + 1) = 0 := by
    rw [hbp (0x80400300 + 1) (by omega) (by omega), hup (0x80400300 + 1) (by omega) (by omega)]
    exact hzi (0x80400300 + 1) (by omega) (by omega)
  have n2 : (Mem.mk B S wb).byteAt (0x80400300 + 2) = 0 := by
    rw [hbp (0x80400300 + 2) (by omega) (by omega), hup (0x80400300 + 2) (by omega) (by omega)]
    exact hzi (0x80400300 + 2) (by omega) (by omega)
  have n3 : (Mem.mk B S wb).byteAt (0x80400300 + 3) = 0 := by
    rw [hbp (0x80400300 + 3) (by omega) (by omega), hup (0x80400300 + 3) (by omega) (by omega)]
    exact hzi (0x80400300 + 3) (by omega) (by omega)
  have hwu1 : (Mem.mk B S wb).read_word 0x80400100 = Except.ok 0x20100401 := by
    rw [read_word_mk B S 0x80400100 wb (by omega), e0, e1, e2, e3,
      show (1 : Nat) ||| 4 <<< 8 ||| 16 <<< 16 ||| 32 <<< 24 = 0x20100401 by decide]
  have hwu0 : (Mem.mk B S wb).read_word 0x80401000 = Except.ok 0x40000C7 := by
    rw [read_word_mk B S 0x80401000 wb (by omega), f0, f1, f2, f3,
      show (0xC7 : Nat) ||| 0 <<< 8 ||| 0 <<< 16 ||| 4 <<< 24 = 0x40000C7 by decide]
  have hwb1 : (Mem.mk B S wb).read_word 0x80400200 = Except.ok 0x20100801 := by
    rw [read_word_mk B S 0x80400200 wb (by omega), g0, g1, g2, g3,
      show (1 : Nat) ||| 8 <<< 8 ||| 16 <<< 16 ||| 32 <<< 24 = 0x20100801 by decide]
  have hwb0 : (Mem.mk B S wb).read_word 0x80402000 = Except.ok 0x80000C7 := by
    rw [read_word_mk B S 0x80402000 wb (by omega), k0, k1, k2, k3,
      show (0xC7 : Nat) ||| 0 <<< 8 ||| 0 <<< 16 ||| 8 <<< 24 = 0x80000C7 by decide]
  have hwn1 : (Mem.mk B S wb).read_word 0x80400300 = Except.ok 0 := by
    rw [read_word_mk B S 0x80400300 wb (by omega), n0, n1, n2, n3,
      show (0 : Nat) ||| 0 <<< 8 ||| 0 <<< 16 ||| 0 <<< 24 = 0 by decide]
  refine ⟨wb, ?_, ?_, ?_, ?_⟩
  · unfold create_user_address_space alloc_frame PAGE_SIZE
    dsimp only
    rw [hzw]
    dsimp only
    rw [show (0x80400000 : Nat) + 4096 = 0x80401000 by omega,
      show (0x80400000 : Nat) >>> 12 = 0x80400 by decide]
    rw [hu]
    dsimp only
    rw [hb]
    dsimp only
    rw [show SATP_MODE_SV32 ||| (0x80400 : Nat) = 0x80080400 by decide]
  · exact translate_walk_ok 0x10000000 0x80080400 0x80400100 0x80401000 0x20100401
      0x40000C7 0x10000000 AccessType.read PrivilegeMode.supervisor (Mem.mk B S wb)
      (by decide) (by decide) hwu1 (by decide) (by decide) (by decide) hwu0
      (by decide) (by decide) (by decide) (by decide)
  · exact translate_walk_ok 0x20000000 0x80080400 0x80400200 0x80402000 0x20100801
      0x80000C7 0x20000000 AccessType.read PrivilegeMode.supervisor (Mem.mk B S wb)
      (by decide) (by decide) hwb1 (by decide) (by decide) (by decide) hwb0
      (by decide) (by decide) (by decide) (by decide)
  · exact translate_l1_invalid 0x30000000 0x80080400 0x80400300 AccessType.read
      PrivilegeMode.supervisor (Mem.mk B S wb) (by decide) (by decide) hwn1

/-- C6 (amended): on the boot memory layout (base 0x8000_0000, 5 MB RAM,
NEXT_FREE_FRAME = 0x8040_0000) with arbitrary prior memory contents,
create_user_address_space allocates and zeroes a fresh root page table and
identity-maps the MMIO pages of the UART (0x1000_0000) and the block device
(0x2000_0000) with R|W permissions, returning satp = SV32_MODE | root_ppn
and a three-frame allocation; after it returns, the UART and block-device
base addresses translate through the returned satp to themselves, while the
network-device base (0x3000_0000) is not mapped and raises a load page
fault. -/
theorem create_user_address_space_spec (w0 : List (Nat × Nat)) :
    ∃ w', create_user_address_space (Mem.mk 0x80000000 0x500000 w0) 0x80400000
        = Except.ok (0x80080400, Mem.mk 0x80000000 0x500000 w', 0x80403000) ∧
      translate 0x10000000 AccessType.read 0x80080400 PrivilegeMode.supervisor
          (Mem.mk 0x80000000 0x500000 w') = Except.ok 0x10000000 ∧
      translate 0x20000000 AccessType.read 0x80080400 PrivilegeMode.supervisor
          (Mem.mk 0x80000000 0x500000 w') = Except.ok 0x20000000 ∧
      translate 0x30000000 AccessType.read 0x80080400 PrivilegeMode.supervisor
          (Mem.mk 0x80000000 0x500000 w')
        = Except.error (TrapCause.loadPageFault 0x30000000) :=
  create_user_space_facts 0x80000000 0x500000 w0 (by norm_num) (by norm_num)

/-- C6 witness: the amended theorem applied to the pristine boot RAM (no prior
writes). -/
theorem create_user_address_space_spec_witness :
    ∃ w', create_user_address_space (Mem.mk 0x80000000 0x500000 []) 0x80400000
        = Except.ok (0x80080400, Mem.mk 0x80000000 0x500000 w', 0x80403000) ∧
      translate 0x10000000 AccessType.read 0x80080400 PrivilegeMode.supervisor
          (Mem.mk 0x80000000 0x500000 w') = Except.ok 0x10000000 ∧
      translate 0x20000000 AccessType.read 0x80080400 PrivilegeMode.supervisor
          (Mem.mk 0x80000000 0x500000 w') = Except.ok 0x20000000 ∧
      translate 0x30000000 AccessType.read 0x80080400 PrivilegeMode.supervisor
          (Mem.mk 0x80000000 0x500000 w')
        = Except.error (TrapCause.loadPageFault 0x30000000) :=
  create_user_address_space_spec []

/-- C6 counterexample: on the pristine boot RAM (5 MB at 0x8000_0000, no
prior writes) with the boot allocator at 0x8040_0000,
create_user_address_space succeeds, returning satp = 0x80080400 and a new
memory state, yet the network-device base 0x3000_0000 does not translate to
itself through that satp: it raises a load page fault, because
create_user_address_space maps only the UART and block-device pages. This
refutes the claim that each of the three device base addresses translates to
itself. -/
theorem create_user_address_space_counterexample :
    ∃ m' nff', create_user_address_space (Mem.mk 0x80000000 0x500000 []) 0x80400000
        = Except.ok (0x80080400, m', nff') ∧
      translate 0x30000000 AccessType.read 0x80080400 PrivilegeMode.supervisor m'
        = Except.error (TrapCause.loadPageFault 0x30000000) := by
  obtain ⟨w', hok, _, _, hnet⟩ :=
    create_user_space_facts 0x80000000 0x500000 [] (by norm_num) (by norm_num)
  exact ⟨Mem.mk 0x80000000 0x500000 w', 0x80403000, hok, hnet⟩

end Ferrous
